import Mathlib

/-
  Verification of the consumer command of the natscli repository
  (src/cli/consumer_command.go) against its natural-language specification.

  The Go code is shallowly embedded: the consumerCmd flag record, the
  api.ConsumerConfig record and the functions backoffPolicy, editAction,
  prepareConfig, getNextMsgDirect and the push subscription handler are
  translated into executable Lean definitions.  Durations are integer
  nanoseconds (Go time.Duration).  Calls that abort the process
  (fisk.Fatalf / fisk.FatalIfError) are modelled as error returns, and
  interactive prompts read their answers from an explicit environment while
  recording which prompt was issued.
-/

set_option maxRecDepth 4000

namespace NatsCli

/-- Durations are integer nanoseconds, as in Go time.Duration. -/
abbrev Duration := Int

/-- One second in nanoseconds. -/
def second : Duration := 1000000000

/-- api.AckPolicy -/
inductive AckPolicy
  | ackNone
  | ackAll
  | ackExplicit
  deriving DecidableEq, Repr

/-- api.ReplayPolicy -/
inductive ReplayPolicy
  | instant
  | original
  deriving DecidableEq, Repr

/-- api.DeliverPolicy -/
inductive DeliverPolicy
  | all
  | last
  | new
  | lastPerSubject
  | byStartSequence
  | byStartTime
  deriving DecidableEq, Repr

/-- api.ConsumerConfig, restricted to the fields the consumer command reads
or writes.  Go maps (metadata) are modelled as association lists. -/
structure ConsumerConfig where
  durable : String
  description : String
  deliverSubject : String
  deliverGroup : String
  deliverPolicy : DeliverPolicy
  optStartSeq : Nat
  optStartTime : Option Int
  ackPolicy : AckPolicy
  ackWait : Duration
  maxDeliver : Int
  filterSubject : String
  filterSubjects : List String
  replayPolicy : ReplayPolicy
  sampleFrequency : String
  rateLimit : Nat
  maxAckPending : Int
  heartbeat : Duration
  flowControl : Bool
  maxWaiting : Int
  headersOnly : Bool
  maxRequestBatch : Int
  maxRequestExpires : Duration
  maxRequestMaxBytes : Int
  inactiveThreshold : Duration
  backoff : List Duration
  replicas : Int
  memoryStorage : Bool
  metadata : List (String × String)
  deriving DecidableEq, Repr

/-- func (c *consumerCmd) defaultConsumer() in consumer_command.go: ack
policy explicit, replay policy instant, everything else at the Go zero
value. -/
def defaultConsumer : ConsumerConfig :=
  { durable := ""
    description := ""
    deliverSubject := ""
    deliverGroup := ""
    deliverPolicy := .all
    optStartSeq := 0
    optStartTime := none
    ackPolicy := .ackExplicit
    ackWait := 0
    maxDeliver := 0
    filterSubject := ""
    filterSubjects := []
    replayPolicy := .instant
    sampleFrequency := ""
    rateLimit := 0
    maxAckPending := 0
    heartbeat := 0
    flowControl := false
    maxWaiting := 0
    headersOnly := false
    maxRequestBatch := 0
    maxRequestExpires := 0
    maxRequestMaxBytes := 0
    inactiveThreshold := 0
    backoff := []
    replicas := 0
    memoryStorage := false
    metadata := [] }

/-- The consumerCmd flag record.  inputFile holds the already decoded
content of the --config file when one was given. -/
structure ConsumerCmd where
  consumer : String
  ack : Bool
  ackSetByUser : Bool
  term : Bool
  raw : Bool
  ackPolicy : String
  ackWait : Duration
  bpsRateLimit : Nat
  delivery : String
  ephemeral : Bool
  filterSubjects : List String
  idleHeartbeat : String
  maxAckPending : Int
  maxDeliver : Int
  maxWaiting : Int
  deliveryGroup : String
  pull : Bool
  replayPolicy : String
  samplePct : Int
  startPolicy : String
  description : String
  inactiveThreshold : Duration
  maxPullExpire : Duration
  maxPullBytes : Int
  maxPullBatch : Int
  backoffMode : String
  backoffSteps : Nat
  backoffMin : Duration
  backoffMax : Duration
  replicas : Int
  memory : Bool
  hdrsOnly : Bool
  hdrsOnlySet : Bool
  fc : Bool
  fcSet : Bool
  metadataIsSet : Bool
  metadata : List (String × String)
  acceptDefaults : Bool
  dryRun : Bool
  force : Bool
  inputFile : Option ConsumerConfig
  deriving DecidableEq, Repr

/-- The flag defaults of the consumer add command (addCreateFlags with
edit=false plus the add-specific flags), with the consumer name taken from
the positional argument. -/
def addDefaults (name : String) : ConsumerCmd :=
  { consumer := name
    ack := false
    ackSetByUser := false
    term := false
    raw := false
    ackPolicy := ""
    ackWait := -second
    bpsRateLimit := 0
    delivery := ""
    ephemeral := false
    filterSubjects := []
    idleHeartbeat := ""
    maxAckPending := -1
    maxDeliver := 0
    maxWaiting := 0
    deliveryGroup := "_unset_"
    pull := false
    replayPolicy := ""
    samplePct := -1
    startPolicy := ""
    description := ""
    inactiveThreshold := 0
    maxPullExpire := 0
    maxPullBytes := 0
    maxPullBatch := 0
    backoffMode := ""
    backoffSteps := 10
    backoffMin := 60 * second
    backoffMax := 1200 * second
    replicas := 0
    memory := false
    hdrsOnly := false
    hdrsOnlySet := false
    fc := false
    fcSet := false
    metadataIsSet := false
    metadata := []
    acceptDefaults := false
    dryRun := false
    force := false
    inputFile := none }

/-- The flag defaults of the consumer edit command (addCreateFlags with
edit=true; the flags absent from the edit command stay at the Go zero
value of the consumerCmd struct). -/
def editDefaults (name : String) : ConsumerCmd :=
  { addDefaults name with deliveryGroup := "" }

/-- Errors and process aborts of the consumer command.  Each constructor
corresponds to one fmt.Errorf or fisk.Fatalf site. -/
inductive Err
  | backoffRequiredProps
  | backoffInvalidMode
  | editNotDurable
  | editAckWaitWithBackoff
  | conflictAckTerm
  | pullNeedsExplicitOrAll
  | invalidDurableName
  | sampleOutOfRange
  | rateLimitPullOnly
  | invalidAckPolicyString
  | invalidReplayPolicyString
  | invalidStartPolicy
  | invalidHeartbeat
  | invalidBackoffDuration
  | backoffStepsTooSmall
  | indexOutOfRange
  | notPullConsumer
  | noMessageReceived
  | metadataParseFailed
  | durableMismatch
  deriving DecidableEq, Repr

/-- Modelled from the spec: jsm.LinearBackoffPeriods is an external library
function (nats-io/jsm.go) not part of this repository.  Per spec section
4.1 it produces steps values evenly spaced from min to max inclusive,
first = min, last = max, linearly interpolated. -/
def linearBackoffPeriods (steps : Nat) (mn mx : Duration) : List Duration :=
  (List.range steps).map fun i =>
    if steps ≤ 1 then mn else mn + (mx - mn) * i / (steps - 1)

/-- func (c *consumerCmd) backoffPolicy() ([]time.Duration, error). -/
def backoffPolicy (c : ConsumerCmd) : Except Err (List Duration) :=
  if c.backoffMode = "none" then .ok []
  else if c.backoffMode = "" ∨ c.backoffSteps = 0 ∨ c.backoffMin = 0 ∨ c.backoffMax = 0 then
    .error .backoffRequiredProps
  else if c.backoffMode = "linear" then
    .ok (linearBackoffPeriods c.backoffSteps c.backoffMin c.backoffMax)
  else .error .backoffInvalidMode

/-- func (c *consumerCmd) sampleFreqFromInt: aborts when the value is
outside 0..100, renders c.samplePct when positive, otherwise the empty
string. -/
def sampleFreqFromInt (c : ConsumerCmd) (s : Int) : Except Err String :=
  if s > 100 ∨ s < 0 then .error .sampleOutOfRange
  else if s > 0 then .ok (toString c.samplePct)
  else .ok ""

/-- The flag override application of editAction (the branch without a
configuration file, lines 316-379): each explicitly set flag replaces the
corresponding field of the copied live configuration.  The single-filter
branch reproduces the source exactly: it reads index 1 of the
one-element slice, which is out of bounds. -/
def applyEditOverrides (c : ConsumerCmd) (ncfg0 : ConsumerConfig) :
    Except Err ConsumerConfig := do
  let ncfg := ncfg0
  let ncfg := if c.description ≠ "" then { ncfg with description := c.description } else ncfg
  let ncfg := if c.maxDeliver ≠ 0 then { ncfg with maxDeliver := c.maxDeliver } else ncfg
  let ncfg := if c.maxAckPending ≠ -1 then { ncfg with maxAckPending := c.maxAckPending } else ncfg
  let ncfg := if c.ackWait ≠ -second then { ncfg with ackWait := c.ackWait } else ncfg
  let ncfg := if c.maxWaiting ≠ 0 then { ncfg with maxWaiting := c.maxWaiting } else ncfg
  let ncfg ← if c.samplePct ≠ -1 then do
      let sf ← sampleFreqFromInt c c.samplePct
      pure { ncfg with sampleFrequency := sf }
    else pure ncfg
  let ncfg := if c.maxPullBatch > 0 then { ncfg with maxRequestBatch := c.maxPullBatch } else ncfg
  let ncfg := if c.maxPullExpire > 0 then { ncfg with maxRequestExpires := c.maxPullExpire } else ncfg
  let ncfg := if c.maxPullBytes > 0 then { ncfg with maxRequestMaxBytes := c.maxPullBytes } else ncfg
  let ncfg ← if c.backoffMode ≠ "" then do
      let bo ← backoffPolicy c
      pure { ncfg with backoff := bo }
    else pure ncfg
  let ncfg := if c.delivery ≠ "" then { ncfg with deliverSubject := c.delivery } else ncfg
  let ncfg := if c.hdrsOnlySet then { ncfg with headersOnly := c.hdrsOnly } else ncfg
  let ncfg ← if c.filterSubjects.length = 1 then
      match c.filterSubjects.get? 1 with
      | some s => pure { ncfg with filterSubject := s }
      | none => Except.error Err.indexOutOfRange
    else if c.filterSubjects.length > 1 then
      pure { ncfg with filterSubjects := c.filterSubjects }
    else pure ncfg
  let ncfg := if c.replicas > 0 then { ncfg with replicas := c.replicas } else ncfg
  let ncfg := if c.metadataIsSet then { ncfg with metadata := c.metadata } else ncfg
  pure ncfg

/-- The starting point of the edited configuration in editAction: the
decoded --config file when given, otherwise the deep copy of the live
configuration with the flag overrides applied. -/
def editBaseConfig (c : ConsumerCmd) (live : ConsumerConfig) :
    Except Err ConsumerConfig :=
  match c.inputFile with
  | some f => .ok f
  | none => applyEditOverrides c live

/-- sort.Strings, as used by the cmp Sort transformer of editAction. -/
def sortStrings (l : List String) : List String :=
  List.insertionSort (fun a b => a ≤ b) l

/-- The configuration as seen by cmp.Diff with the Sort transformer:
string-list valued fields are sorted before comparison. -/
def normalizeForDiff (cfg : ConsumerConfig) : ConsumerConfig :=
  { cfg with filterSubjects := sortStrings cfg.filterSubjects }

/-- configDiffEmpty a b is true exactly when the cmp.Diff of editAction
renders an empty difference: all fields equal, subject lists compared
after sorting. -/
def configDiffEmpty (a b : ConsumerConfig) : Bool :=
  decide (normalizeForDiff a = normalizeForDiff b)

/-- The possible completions of editAction. -/
inductive EditOutcome
  | noDifference
  | dryRunStop (ncfg : ConsumerConfig)
  | notConfirmed (ncfg : ConsumerConfig)
  | submitted (ncfg : ConsumerConfig)
  deriving DecidableEq, Repr

/-- func (c *consumerCmd) editAction.  live is the configuration of the
loaded consumer and confirmed the answer of the confirmation prompt.
submitted means a full replacement configuration was sent with
NewConsumerFromDefault; every other outcome performs no remote write. -/
def editAction (c : ConsumerCmd) (live : ConsumerConfig) (confirmed : Bool) :
    Except Err EditOutcome :=
  if live.durable = "" then Except.error Err.editNotDurable
  else
    match editBaseConfig c live with
    | .error e => .error e
    | .ok ncfg =>
      if ncfg.backoff.length > 0 ∧ ncfg.ackWait ≠ live.ackWait then
        Except.error Err.editAckWaitWithBackoff
      else if configDiffEmpty live ncfg then
        Except.ok EditOutcome.noDifference
      else if c.dryRun then Except.ok (EditOutcome.dryRunStop ncfg)
      else if ¬ c.force ∧ ¬ confirmed then Except.ok (EditOutcome.notConfirmed ncfg)
      else Except.ok (EditOutcome.submitted ncfg)

/-- Lines 848-852 of cpAction: the filter subject override of the copy
flow, which takes element 0 of a single-element filter list. -/
def cpApplyFilter (c : ConsumerCmd) (cfg : ConsumerConfig) :
    Except Err ConsumerConfig :=
  if c.filterSubjects.length = 1 then
    match c.filterSubjects.get? 0 with
    | some s => .ok { cfg with filterSubject := s }
    | none => .error .indexOutOfRange
  else if c.filterSubjects.length > 1 then
    .ok { cfg with filterSubjects := c.filterSubjects }
  else .ok cfg

/-- A received wire message: subject, reply subject, body and headers.
Header lookups return the empty string when the key is absent, as in Go. -/
structure NatsMsg where
  subject : String
  reply : String
  data : String
  headers : List (String × String)
  deriving DecidableEq, Repr

/-- nats.Header.Get -/
def headerGet (hs : List (String × String)) (k : String) : String :=
  match hs.find? (fun p => p.1 = k) with
  | some p => p.2
  | none => ""

/-- Observable wire-level side effects of the fetch and subscribe paths,
in program order. -/
inductive FetchEvent
  | subscribeSync
  | nextMsgRequest
  | waitMsg
  | loadConsumerCheck
  | displayMsg
  | termSignal
  | ackSignal
  | flushConn
  deriving DecidableEq, Repr

/-- The environment of one getNextMsgDirect call: whether the target
consumer is in pull mode, and the message the reply subscription delivers
within the timeout, if any. -/
structure FetchEnv where
  isPullMode : Bool
  received : Option NatsMsg
  deriving Repr

/-- func (c *consumerCmd) getNextMsgDirect, as the list of wire events it
performs in order together with the error that aborts it, if any.  The
subscription bind and the next-message request happen first; the
term/ack conflict check runs after them but before the reply is awaited;
then display, terminate and acknowledge follow as flagged. -/
def getNextMsgDirect (c : ConsumerCmd) (env : FetchEnv) :
    List FetchEvent × Option Err :=
  let tr := [FetchEvent.subscribeSync, FetchEvent.nextMsgRequest]
  let ackEff := if c.term ∧ ¬ c.ackSetByUser then false else c.ack
  if c.term ∧ ackEff then (tr, some .conflictAckTerm)
  else
    match env.received with
    | none =>
      if ¬ env.isPullMode then
        (tr ++ [.waitMsg, .loadConsumerCheck], some .notPullConsumer)
      else (tr ++ [.waitMsg, .loadConsumerCheck], some .noMessageReceived)
    | some msg =>
      if headerGet msg.headers "Status" = "503" ∧ ¬ env.isPullMode then
        (tr ++ [.waitMsg, .loadConsumerCheck], some .notPullConsumer)
      else
        let tr := tr ++ [FetchEvent.waitMsg] ++
          (if headerGet msg.headers "Status" = "503" then [FetchEvent.loadConsumerCheck] else []) ++
          [FetchEvent.displayMsg]
        let tr := if c.term then tr ++ [FetchEvent.termSignal, FetchEvent.flushConn] else tr
        let tr := if ackEff then tr ++ [FetchEvent.ackSignal, FetchEvent.flushConn] else tr
        (tr, none)

/-- Observable side effects of the push subscription handler. -/
inductive SubEvent
  | publish (subject : String)
  | displayInfo
  | displayBody
  deriving DecidableEq, Repr

/-- nats.Msg.Respond: publishes an empty payload to the reply subject; a
message without reply subject produces no publish (Go returns
ErrMsgNoReply, which the handler ignores). -/
def msgRespond (m : NatsMsg) : List SubEvent :=
  if m.reply = "" then [] else [SubEvent.publish m.reply]

/-- Delivery metadata decoded from the reply subject by
jsm.ParseJSMsgMetadata. -/
structure MsgInfo where
  delivered : Nat
  consumerSeq : Nat
  streamSeq : Nat
  pending : Nat
  deriving DecidableEq, Repr

/-- The per-message handler of subscribeConsumer (lines 1522-1586).
parseMeta stands for jsm.ParseJSMsgMetadata; a parse failure on a message
carrying a reply subject aborts the process.  The result is the ordered
list of wire and display effects of handling one message. -/
def pushHandler (c : ConsumerCmd) (parseMeta : NatsMsg → Option MsgInfo)
    (m : NatsMsg) : Except Err (List SubEvent) :=
  if m.data = "" ∧ headerGet m.headers "Status" = "100" then
    let stalled := headerGet m.headers "Nats-Consumer-Stalled"
    .ok (if stalled ≠ "" then [SubEvent.publish stalled] else msgRespond m)
  else
    (if m.reply.length > 0 then
      match parseMeta m with
      | some i => Except.ok (some i)
      | none => Except.error Err.metadataParseFailed
    else Except.ok none) >>= fun _ =>
    if ¬ c.raw ∧ m.headers.length > 0 ∧ m.data = "" ∧ m.reply ≠ "" ∧
        headerGet m.headers "Status" = "100" then
      .ok ([SubEvent.displayInfo] ++ msgRespond m)
    else
      let evs := (if c.raw then [] else [SubEvent.displayInfo]) ++ [SubEvent.displayBody]
      .ok (evs ++ (if c.ack then msgRespond m else []))

/-- Which interactive prompt was issued during derivation. -/
inductive Prompt
  | consumerName
  | deliveryTarget
  | deliveryGroup
  | startPolicy
  | ackPolicy
  | replayPolicy
  | filterSubject
  | maxDeliver
  | maxAckPending
  | idleHeartbeat
  | flowControl
  | headersOnly
  | backoffAdd
  | backoffMode
  | backoffMin
  | backoffMax
  | backoffSteps
  deriving DecidableEq, Repr

/-- Answers the interactive environment returns for each prompt. -/
structure PromptAnswers where
  consumerName : String
  deliveryTarget : String
  deliveryGroup : String
  startPolicy : String
  ackPolicy : String
  replayPolicy : String
  replayPolicy2 : String
  filterSubject : String
  maxDeliver : Int
  maxAckPending : Int
  idleHeartbeat : String
  flowControl : Bool
  headersOnly : Bool
  backoffAdd : Bool
  backoffMode : String
  backoffMin : String
  backoffMax : String
  backoffSteps : Int
  deriving DecidableEq, Repr

/-- Intermediate state of prepareConfig: the mutable flag record, the
configuration under construction and the prompts issued so far. -/
structure PrepState where
  c : ConsumerCmd
  cfg : ConsumerConfig
  prompts : List Prompt
  deriving Repr

/-- func (c *consumerCmd) setStartPolicy.  parseDur stands for the
repository helper parseDurationString; now is the current UTC time in
nanoseconds, so a relative start is now minus the parsed duration. -/
def setStartPolicy (parseDur : String → Option Duration) (now : Int)
    (cfg : ConsumerConfig) (policy : String) : Except Err ConsumerConfig :=
  if policy = "" then .ok cfg
  else if policy = "all" then .ok { cfg with deliverPolicy := .all }
  else if policy = "last" then .ok { cfg with deliverPolicy := .last }
  else if policy = "new" ∨ policy = "next" then .ok { cfg with deliverPolicy := .new }
  else if policy = "subject" ∨ policy = "last_per_subject" then
    .ok { cfg with deliverPolicy := .lastPerSubject }
  else if policy.length > 0 ∧ policy.all Char.isDigit then
    .ok { cfg with deliverPolicy := .byStartSequence, optStartSeq := policy.toNat?.getD 0 }
  else
    match parseDur policy with
    | some d => .ok { cfg with deliverPolicy := .byStartTime, optStartTime := some (now - d) }
    | none => .error .invalidStartPolicy

/-- strings.ToLower, restricted to ASCII as the policy keywords compared
against are ASCII. -/
def toLowerStr (s : String) : String :=
  String.mk (s.data.map Char.toLower)

/-- strings.Contains for a single character, written over the character
list so that it evaluates by unfolding. -/
def strContains (s : String) (c : Char) : Bool :=
  s.data.contains c

/-- func (c *consumerCmd) ackPolicyFromString. -/
def ackPolicyFromString (p : String) : Except Err AckPolicy :=
  if toLowerStr p = "none" then .ok .ackNone
  else if toLowerStr p = "all" then .ok .ackAll
  else if toLowerStr p = "explicit" then .ok .ackExplicit
  else .error .invalidAckPolicyString

/-- func (c *consumerCmd) replayPolicyFromString. -/
def replayPolicyFromString (p : String) : Except Err ReplayPolicy :=
  if toLowerStr p = "instant" then .ok .instant
  else if toLowerStr p = "original" then .ok .original
  else .error .invalidReplayPolicyString

/-- Lines 1004-1025: prompt for the durable name and the delivery target,
validate the durable name and set the delivery subject. -/
def prep1 (ans : PromptAnswers) (st : PrepState) : Except Err PrepState :=
  let st :=
    if st.c.consumer = "" ∧ ¬ st.c.ephemeral then
      { st with c := { st.c with consumer := ans.consumerName },
                prompts := st.prompts ++ [Prompt.consumerName] }
    else st
  let st := { st with cfg := { st.cfg with durable := st.c.consumer } }
  if strContains st.cfg.durable '.' ∨ strContains st.cfg.durable '*' ∨
      strContains st.cfg.durable '>' then
    .error .invalidDurableName
  else
    let st :=
      if ¬ st.c.pull ∧ st.c.delivery = "" then
        { st with c := { st.c with delivery := ans.deliveryTarget },
                  prompts := st.prompts ++ [Prompt.deliveryTarget] }
      else st
    .ok { st with cfg := { st.cfg with deliverSubject := st.c.delivery } }

/-- Lines 1027-1059: the acceptDefaults fallback table. -/
def prep2 (st : PrepState) : PrepState :=
  if ¬ st.c.acceptDefaults then st
  else
    let c := st.c
    let c := if c.deliveryGroup = "_unset_" then { c with deliveryGroup := "" } else c
    let c := if c.startPolicy = "" then { c with startPolicy := "all" } else c
    let c := if c.ackPolicy = "" then
        { c with ackPolicy := if c.pull ∨ c.delivery = "" then "explicit" else "none" }
      else c
    let c := if c.maxDeliver = 0 then { c with maxDeliver := -1 } else c
    let c := if c.maxAckPending = -1 then { c with maxAckPending := 0 } else c
    let c := if c.replayPolicy = "" then { c with replayPolicy := "instant" } else c
    let c := if c.idleHeartbeat = "" then { c with idleHeartbeat := "-1" } else c
    let c := if ¬ c.hdrsOnlySet then { c with hdrsOnlySet := true } else c
    let c := if st.cfg.deliverSubject ≠ "" then
        { c with replayPolicy := "instant", fcSet := true }
      else c
    { st with c := c }

/-- Lines 1061-1071: delivery group prompt and assignment. -/
def prep3 (ans : PromptAnswers) (st : PrepState) : PrepState :=
  let st :=
    if st.cfg.deliverSubject ≠ "" ∧ st.c.deliveryGroup = "_unset_" then
      { st with c := { st.c with deliveryGroup := ans.deliveryGroup },
                prompts := st.prompts ++ [Prompt.deliveryGroup] }
    else st
  let st := { st with cfg := { st.cfg with deliverGroup := st.c.deliveryGroup } }
  if st.cfg.deliverGroup = "_unset_" then
    { st with cfg := { st.cfg with deliverGroup := "" } }
  else st

/-- Lines 1073-1082: start policy prompt and setStartPolicy. -/
def prep4 (ans : PromptAnswers) (parseDur : String → Option Duration) (now : Int)
    (st : PrepState) : Except Err PrepState :=
  let st :=
    if st.c.startPolicy = "" then
      { st with c := { st.c with startPolicy := ans.startPolicy },
                prompts := st.prompts ++ [Prompt.startPolicy] }
    else st
  match setStartPolicy parseDur now st.cfg st.c.startPolicy with
  | .error e => .error e
  | .ok cfg => .ok { st with cfg := cfg }

/-- Lines 1084-1108: the acknowledgement and replay prompts. -/
def prep5prompts (ans : PromptAnswers) (st : PrepState) : PrepState :=
  let st :=
    if st.c.ackPolicy = "" then
      { st with c := { st.c with ackPolicy := ans.ackPolicy },
                prompts := st.prompts ++ [Prompt.ackPolicy] }
    else st
  if st.c.replayPolicy = "" then
    { st with c := { st.c with replayPolicy := ans.replayPolicy },
              prompts := st.prompts ++ [Prompt.replayPolicy] }
  else st

/-- Lines 1110-1113: ack policy resolution and the pull-mode check. -/
def prep5check (st : PrepState) : Except Err PrepState :=
  match ackPolicyFromString st.c.ackPolicy with
  | .error e => .error e
  | .ok ap =>
    let st := { st with cfg := { st.cfg with ackPolicy := ap } }
    if st.cfg.ackPolicy = AckPolicy.ackNone ∧ st.cfg.deliverSubject = "" then
      .error .pullNeedsExplicitOrAll
    else .ok st

/-- Lines 1115-1117: ack policy none forces unlimited deliveries. -/
def prep5none (st : PrepState) : PrepState :=
  if st.cfg.ackPolicy = AckPolicy.ackNone then
    { st with cfg := { st.cfg with maxDeliver := -1 } }
  else st

/-- Lines 1119-1121: explicit ack wait. -/
def prep5wait (st : PrepState) : PrepState :=
  if st.c.ackWait > 0 then { st with cfg := { st.cfg with ackWait := st.c.ackWait } }
  else st

/-- Lines 1123-1129: sampling percentage. -/
def prep5sample (st : PrepState) : Except Err PrepState :=
  if st.c.samplePct > 0 then
    if st.c.samplePct > 100 then .error .sampleOutOfRange
    else .ok { st with cfg := { st.cfg with sampleFrequency := toString st.c.samplePct } }
  else .ok st

/-- Lines 1084-1129: acknowledgement and replay prompts, ack policy
resolution with the pull-mode check, ack wait and sampling. -/
def prep5 (ans : PromptAnswers) (st : PrepState) : Except Err PrepState :=
  match prep5check (prep5prompts ans st) with
  | .error e => .error e
  | .ok st => prep5sample (prep5wait (prep5none st))

/-- Lines 1131-1147: the push-mode replay prompt and replay policy
resolution. -/
def prep6 (ans : PromptAnswers) (st : PrepState) : Except Err PrepState :=
  let st :=
    if st.cfg.deliverSubject ≠ "" ∧ st.c.replayPolicy = "" then
      { st with c := { st.c with replayPolicy := ans.replayPolicy2 },
                prompts := st.prompts ++ [Prompt.replayPolicy] }
    else st
  if st.c.replayPolicy ≠ "" then
    match replayPolicyFromString st.c.replayPolicy with
    | .error e => .error e
    | .ok rp => .ok { st with cfg := { st.cfg with replayPolicy := rp } }
  else .ok st

/-- Lines 1149-1170: filter subject prompt, assignment and the
last-per-subject wildcard default. -/
def prep7 (ans : PromptAnswers) (st : PrepState) : PrepState :=
  let st :=
    if st.c.filterSubjects.length = 0 ∧ ¬ st.c.acceptDefaults then
      { st with c := { st.c with filterSubjects := [ans.filterSubject] },
                prompts := st.prompts ++ [Prompt.filterSubject] }
    else st
  let st :=
    if st.c.filterSubjects.length = 1 then
      { st with cfg := { st.cfg with filterSubject := st.c.filterSubjects.headD "" } }
    else if st.c.filterSubjects.length > 1 then
      { st with cfg := { st.cfg with filterSubjects := st.c.filterSubjects } }
    else st
  if st.cfg.filterSubject = "" ∧ st.c.filterSubjects.length = 0 ∧
      st.cfg.deliverPolicy = DeliverPolicy.lastPerSubject then
    { st with cfg := { st.cfg with filterSubject := ">" } }
  else st

/-- Lines 1172-1188: maximum deliveries and maximum pending prompts. -/
def prep8 (ans : PromptAnswers) (st : PrepState) : PrepState :=
  let st :=
    if st.c.maxDeliver = 0 ∧ st.cfg.ackPolicy ≠ AckPolicy.ackNone then
      { st with c := { st.c with maxDeliver := ans.maxDeliver },
                prompts := st.prompts ++ [Prompt.maxDeliver] }
    else st
  if st.c.maxAckPending = -1 ∧ st.cfg.ackPolicy ≠ AckPolicy.ackNone then
    { st with c := { st.c with maxAckPending := ans.maxAckPending },
              prompts := st.prompts ++ [Prompt.maxAckPending] }
  else st

/-- Lines 1190-1207: idle heartbeat resolution for push consumers. -/
def prep9hb (ans : PromptAnswers) (parseDur : String → Option Duration)
    (st : PrepState) : Except Err PrepState :=
  if st.cfg.deliverSubject ≠ "" then
    if st.c.idleHeartbeat = "-1" then
      Except.ok { st with cfg := { st.cfg with heartbeat := 0 } }
    else if st.c.idleHeartbeat ≠ "" then
      match parseDur st.c.idleHeartbeat with
      | some d => Except.ok { st with cfg := { st.cfg with heartbeat := d } }
      | none => Except.error Err.invalidHeartbeat
    else
      match parseDur ans.idleHeartbeat with
      | some d =>
        Except.ok { st with cfg := { st.cfg with heartbeat := d },
                            prompts := st.prompts ++ [Prompt.idleHeartbeat] }
      | none => Except.error Err.invalidHeartbeat
  else Except.ok st

/-- Lines 1190-1216: idle heartbeat resolution and flow control for push
consumers. -/
def prep9 (ans : PromptAnswers) (parseDur : String → Option Duration)
    (st : PrepState) : Except Err PrepState :=
  match prep9hb ans parseDur st with
  | .error e => .error e
  | .ok st =>
    if st.cfg.deliverSubject ≠ "" then
      let st :=
        if ¬ st.c.fcSet then
          { st with c := { st.c with fc := ans.flowControl },
                    prompts := st.prompts ++ [Prompt.flowControl] }
        else st
      .ok { st with cfg := { st.cfg with flowControl := st.c.fc } }
    else .ok st

/-- Lines 1218-1222: headers-only prompt and assignment. -/
def prep10 (ans : PromptAnswers) (st : PrepState) : PrepState :=
  let st :=
    if ¬ st.c.hdrsOnlySet then
      { st with c := { st.c with hdrsOnly := ans.headersOnly },
                prompts := st.prompts ++ [Prompt.headersOnly] }
    else st
  { st with cfg := { st.cfg with headersOnly := st.c.hdrsOnly } }

/-- func (c *consumerCmd) askBackoffPolicy (lines 1285-1344). -/
def askBackoffPolicy (ans : PromptAnswers) (parseDur : String → Option Duration)
    (st : PrepState) : Except Err PrepState :=
  let st := { st with prompts := st.prompts ++ [Prompt.backoffAdd] }
  if ¬ ans.backoffAdd then .ok st
  else
    let st := { st with c := { st.c with backoffMode := ans.backoffMode },
                        prompts := st.prompts ++ [Prompt.backoffMode] }
    if st.c.backoffMode = "none" then .ok st
    else
      match parseDur ans.backoffMin with
      | none => .error .invalidBackoffDuration
      | some mn =>
        let st := { st with c := { st.c with backoffMin := mn },
                            prompts := st.prompts ++ [Prompt.backoffMin] }
        match parseDur ans.backoffMax with
        | none => .error .invalidBackoffDuration
        | some mx =>
          let st := { st with c := { st.c with backoffMax := mx },
                              prompts := st.prompts ++ [Prompt.backoffMax] }
          if ans.backoffSteps < 1 then .error .backoffStepsTooSmall
          else .ok { st with c := { st.c with backoffSteps := ans.backoffSteps.toNat },
                             prompts := st.prompts ++ [Prompt.backoffSteps] }

/-- Lines 1224-1241: interactive backoff policy, backoff generation and
the max-deliver adjustment accompanying a generated schedule. -/
def prep11 (ans : PromptAnswers) (parseDur : String → Option Duration)
    (st : PrepState) : Except Err PrepState :=
  match (if ¬ st.c.acceptDefaults ∧ st.c.backoffMode = "" then askBackoffPolicy ans parseDur st
         else Except.ok st) with
  | .error e => .error e
  | .ok st =>
    if st.c.backoffMode ≠ "" then
      match backoffPolicy st.c with
      | .error e => .error e
      | .ok bo =>
        let st := { st with cfg := { st.cfg with backoff := bo } }
        if st.c.maxDeliver = -1 ∧ st.cfg.backoff.length > 0 then
          .ok { st with c := { st.c with maxDeliver := Int.ofNat st.cfg.backoff.length + 1 } }
        else .ok st
    else .ok st

/-- Lines 1243-1248: late sentinel resolution of max pending and the
always-written fields. -/
def prep12pending (st : PrepState) : PrepState :=
  let c := if st.c.maxAckPending = -1 then { st.c with maxAckPending := 0 } else st.c
  { st with c := c,
            cfg := { st.cfg with maxAckPending := c.maxAckPending,
                                 inactiveThreshold := c.inactiveThreshold } }

/-- Lines 1250-1260: pull request limits. -/
def prep12limits (st : PrepState) : PrepState :=
  let cfg := if st.c.maxPullBatch > 0 then
      { st.cfg with maxRequestBatch := st.c.maxPullBatch }
    else st.cfg
  let cfg := if st.c.maxPullExpire > 0 then
      { cfg with maxRequestExpires := st.c.maxPullExpire }
    else cfg
  let cfg := if st.c.maxPullBytes > 0 then
      { cfg with maxRequestMaxBytes := st.c.maxPullBytes }
    else cfg
  { st with cfg := cfg }

/-- Lines 1262-1264: the waiting-pull cap is only written in pull mode. -/
def prep12waiting (st : PrepState) : PrepState :=
  if st.cfg.deliverSubject = "" then
    { st with cfg := { st.cfg with maxWaiting := st.c.maxWaiting } }
  else st

/-- Lines 1266-1268: the max-deliver flag lands in the configuration
unless unset or the ack policy is none. -/
def prep12maxdeliver (st : PrepState) : PrepState :=
  if st.c.maxDeliver ≠ 0 ∧ st.cfg.ackPolicy ≠ AckPolicy.ackNone then
    { st with cfg := { st.cfg with maxDeliver := st.c.maxDeliver } }
  else st

/-- Lines 1274-1280: the final field writes after the rate limit check. -/
def prep12final (st : PrepState) : PrepState :=
  let cfg := { st.cfg with rateLimit := st.c.bpsRateLimit,
                           replicas := st.c.replicas,
                           memoryStorage := st.c.memory }
  let cfg := if st.c.metadataIsSet then { cfg with metadata := st.c.metadata } else cfg
  { st with cfg := cfg }

/-- Lines 1243-1282: sentinel resolution and the remaining assignments
and checks. -/
def prep12 (st : PrepState) : Except Err PrepState :=
  let st := prep12maxdeliver (prep12waiting (prep12limits (prep12pending st)))
  if st.c.bpsRateLimit > 0 ∧ st.cfg.deliverSubject = "" then .error .rateLimitPullOnly
  else .ok (prep12final st)

/-- The result of prepareConfig: the derived configuration and the
prompts issued on the way. -/
structure PrepResult where
  cfg : ConsumerConfig
  prompts : List Prompt
  deriving DecidableEq, Repr

/-- func (c *consumerCmd) prepareConfig (lines 979-1283).  ans supplies
the interactive answers, parseDur stands for the repository helper
parseDurationString and now is the current time.  The --config branch
returns the decoded file after merging the durable name and the delivery
target. -/
def prepareConfig (c : ConsumerCmd) (ans : PromptAnswers)
    (parseDur : String → Option Duration) (now : Int) : Except Err PrepResult :=
  let cfg0 := { defaultConsumer with description := c.description }
  match c.inputFile with
  | some f =>
    (if f.durable ≠ "" ∧ c.consumer ≠ "" ∧ f.durable ≠ c.consumer then
       if c.consumer ≠ "" then Except.ok { f with durable := c.consumer }
       else Except.error Err.durableMismatch
     else Except.ok f) >>= fun cfg =>
    let cfg := if cfg.deliverSubject ≠ "" ∧ c.delivery ≠ "" then
        { cfg with deliverSubject := c.delivery }
      else cfg
    .ok { cfg := cfg, prompts := [] }
  | none =>
    prep1 ans { c := c, cfg := cfg0, prompts := [] } >>= fun st =>
    let st := prep2 st
    let st := prep3 ans st
    prep4 ans parseDur now st >>= fun st =>
    prep5 ans st >>= fun st =>
    prep6 ans st >>= fun st =>
    let st := prep7 ans st
    let st := prep8 ans st
    prep9 ans parseDur st >>= fun st =>
    let st := prep10 ans st
    prep11 ans parseDur st >>= fun st =>
    prep12 st >>= fun st =>
    .ok { cfg := st.cfg, prompts := st.prompts }

/-! Theorems. -/

/-- Decidable equality of Except values with decidable components. -/
instance {α β : Type} [DecidableEq α] [DecidableEq β] : DecidableEq (Except α β) := fun a b => by
  cases a <;> cases b
  · rename_i x y
    exact if h : x = y then isTrue (by rw [h]) else isFalse (by intro hh; injection hh; exact h ‹_›)
  · exact isFalse (by intro hh; injection hh)
  · exact isFalse (by intro hh; injection hh)
  · rename_i x y
    exact if h : x = y then isTrue (by rw [h]) else isFalse (by intro hh; injection hh; exact h ‹_›)

/-- Inversion of a successful Except bind. -/
theorem except_bind_ok {α β γ : Type} {x : Except α β} {f : β → Except α γ} {b : γ}
    (h : (x >>= f) = .ok b) : ∃ a, x = .ok a ∧ f a = .ok b := by
  cases x with
  | error e => exact absurd h (by simp [Bind.bind, Except.bind])
  | ok a => exact ⟨a, rfl, by simpa [Bind.bind, Except.bind] using h⟩

/-- C4: the backoff policy generator returns the empty schedule without
error for mode none; fails for mode linear whenever the step count, the
minimum or the maximum is zero; and fails for every mode other than none
and linear. -/
theorem c4_backoff_policy_contract (c : ConsumerCmd) :
    (c.backoffMode = "none" → backoffPolicy c = .ok []) ∧
    (c.backoffMode = "linear" →
      (c.backoffSteps = 0 ∨ c.backoffMin = 0 ∨ c.backoffMax = 0) →
      backoffPolicy c = .error .backoffRequiredProps) ∧
    (c.backoffMode ≠ "none" → c.backoffMode ≠ "linear" →
      ∃ e, backoffPolicy c = .error e) := by
  refine ⟨fun h => ?_, fun h hz => ?_, fun h1 h2 => ?_⟩
  · simp [backoffPolicy, h]
  · rcases hz with hz | hz | hz <;> simp [backoffPolicy, h, hz]
  · by_cases hg : c.backoffMode = "" ∨ c.backoffSteps = 0 ∨ c.backoffMin = 0 ∨ c.backoffMax = 0
    · exact ⟨.backoffRequiredProps, by simp [backoffPolicy, h1, h2, hg]⟩
    · exact ⟨.backoffInvalidMode, by simp [backoffPolicy, h1, h2, hg]⟩

/-- Witness for C4 at concrete inputs: mode none, mode linear with zero
steps, and an unknown mode. -/
theorem c4_witness :
    backoffPolicy { addDefaults "X" with backoffMode := "none" } = .ok [] ∧
    backoffPolicy { addDefaults "X" with backoffMode := "linear", backoffSteps := 0 } =
      .error .backoffRequiredProps ∧
    ∃ e, backoffPolicy { addDefaults "X" with backoffMode := "fib" } = .error e :=
  ⟨(c4_backoff_policy_contract _).1 rfl,
   (c4_backoff_policy_contract _).2.1 rfl (Or.inl rfl),
   (c4_backoff_policy_contract _).2.2 (by decide) (by decide)⟩

/-- Fetch flags with the terminate flag set and the acknowledge flag
explicitly requested. -/
def c1Cmd : ConsumerCmd :=
  { addDefaults "C1" with term := true, ack := true, ackSetByUser := true }

/-- A fetch environment with a pull consumer and one pending message. -/
def c1Env : FetchEnv :=
  { isPullMode := true
    received := some { subject := "ORDERS.new", reply := "r1", data := "m", headers := [] } }

/-- C1 counterexample: requesting both terminate and acknowledge does
fail with the conflicting-action error, but not before any network call:
the event trace of the failing getNextMsgDirect run already contains the
reply subscription bind and the published next-message request. -/
theorem c1_counterexample :
    (getNextMsgDirect c1Cmd c1Env).2 = some Err.conflictAckTerm ∧
    FetchEvent.subscribeSync ∈ (getNextMsgDirect c1Cmd c1Env).1 ∧
    FetchEvent.nextMsgRequest ∈ (getNextMsgDirect c1Cmd c1Env).1 := by
  decide

/-- C1 (amended): whenever the terminate flag is set and the acknowledge
flag is explicitly requested, getNextMsgDirect fails with the
conflicting-action error before the reply is awaited and before any
terminate or acknowledge signal is sent, though only after the reply
subscription is bound and the next-message request is published: the
trace is exactly the subscription bind followed by the request. -/
theorem c1_term_ack_conflict (c : ConsumerCmd) (env : FetchEnv)
    (ht : c.term = true) (ha : c.ack = true) (hu : c.ackSetByUser = true) :
    getNextMsgDirect c env =
      ([FetchEvent.subscribeSync, FetchEvent.nextMsgRequest], some Err.conflictAckTerm) := by
  unfold getNextMsgDirect
  simp [ht, ha, hu]

/-- Witness for C1 at the concrete conflicting flags. -/
theorem c1_witness :
    getNextMsgDirect c1Cmd c1Env =
      ([FetchEvent.subscribeSync, FetchEvent.nextMsgRequest], some Err.conflictAckTerm) :=
  c1_term_ack_conflict c1Cmd c1Env rfl rfl rfl

/-- A live configuration with a backoff schedule. -/
def c2Live : ConsumerConfig :=
  { defaultConsumer with durable := "C2", ackWait := 30 * second, backoff := [60 * second] }

/-- Edit flags that change the acknowledgement wait and clear the backoff
schedule in the same edit. -/
def c2Cmd : ConsumerCmd :=
  { editDefaults "C2" with ackWait := 10 * second, backoffMode := "none", force := true }

/-- C2 counterexample: editing a live configuration whose backoff
schedule is non-empty while changing the acknowledgement wait does not
always fail: when the same edit also clears the backoff schedule, the
reconciliation submits the new configuration. -/
theorem c2_counterexample :
    c2Live.backoff ≠ [] ∧
    ∃ ncfg, editAction c2Cmd c2Live true = .ok (.submitted ncfg) ∧
      ncfg.ackWait ≠ c2Live.ackWait := by
  exact ⟨by decide, { c2Live with ackWait := 10 * second, backoff := [] }, by decide, by decide⟩

/-- C2 (amended): an edit fails with the incompatible-edit error whenever
the post-override configuration still has a non-empty backoff schedule
and its acknowledgement wait differs from the live value; nothing is
submitted then. -/
theorem c2_edit_ackwait_backoff_guard (c : ConsumerCmd) (live ncfg : ConsumerConfig)
    (confirmed : Bool) (hd : live.durable ≠ "")
    (hov : editBaseConfig c live = .ok ncfg)
    (hbo : ncfg.backoff ≠ []) (hw : ncfg.ackWait ≠ live.ackWait) :
    editAction c live confirmed = .error .editAckWaitWithBackoff := by
  simp only [editAction, if_neg hd, hov]
  rw [if_pos ⟨List.length_pos.mpr hbo, hw⟩]

/-- A second live configuration with a backoff schedule, for the C2
witness. -/
def c2WitLive : ConsumerConfig :=
  { defaultConsumer with durable := "C2W", ackWait := 30 * second, backoff := [60 * second] }

/-- Witness for C2 (amended) at a concrete edit that only changes the
acknowledgement wait. -/
theorem c2_witness :
    editAction { editDefaults "C2W" with ackWait := 5 * second } c2WitLive true =
      .error .editAckWaitWithBackoff :=
  c2_edit_ackwait_backoff_guard _ c2WitLive { c2WitLive with ackWait := 5 * second } true
    (by decide) (by decide) (by decide) (by decide)

/-- C3: the reconciliation diff compares subject lists as sets and an
empty diff produces the no-change outcome with no submission: when the
overrides yield the live configuration with its filter subjects merely
permuted, editAction reports no difference and nothing is submitted. -/
theorem c3_diff_order_insensitive (c : ConsumerCmd) (live : ConsumerConfig)
    (l : List String) (confirmed : Bool) (hd : live.durable ≠ "")
    (hov : editBaseConfig c live = .ok { live with filterSubjects := l })
    (hperm : l.Perm live.filterSubjects) :
    editAction c live confirmed = .ok .noDifference := by
  have hsort : sortStrings l = sortStrings live.filterSubjects :=
    List.eq_of_perm_of_sorted
      (((List.perm_insertionSort _ l).trans hperm).trans
        (List.perm_insertionSort _ live.filterSubjects).symm)
      (List.sorted_insertionSort _ l)
      (List.sorted_insertionSort _ live.filterSubjects)
  have hdiff : configDiffEmpty live { live with filterSubjects := l } = true := by
    unfold configDiffEmpty normalizeForDiff
    rw [decide_eq_true_eq]
    show ({ live with filterSubjects := sortStrings live.filterSubjects } : ConsumerConfig) =
      { live with filterSubjects := sortStrings l }
    rw [hsort]
  simp only [editAction, if_neg hd, hov]
  rw [if_neg (fun h => h.2 rfl), if_pos hdiff]

/-- A live configuration with two filter subjects, for the C3 witness. -/
def c3Live : ConsumerConfig :=
  { defaultConsumer with durable := "C3", filterSubjects := ["a", "b"] }

/-- Witness for C3 at a concrete edit that reorders the filter
subjects. -/
theorem c3_witness :
    editAction { editDefaults "C3" with filterSubjects := ["b", "a"] } c3Live false =
      .ok .noDifference :=
  c3_diff_order_insensitive _ c3Live ["b", "a"] false (by decide) (by decide) (by decide)

/-- A live durable configuration for the single-filter edit. -/
def c10Live : ConsumerConfig := { defaultConsumer with durable := "C10" }

/-- C10: an edit supplying exactly one filter subject override is not
total: the override application reads index 1 of the one-element list and
aborts out of range, whereas the copy flow takes element 0 of the same
list and sets the single filter subject. -/
theorem c10_single_filter_out_of_range :
    editAction { editDefaults "C10" with filterSubjects := ["orders"], force := true }
        c10Live true =
      .error .indexOutOfRange ∧
    cpApplyFilter { addDefaults "X" with filterSubjects := ["orders"] } defaultConsumer =
      .ok { defaultConsumer with filterSubject := "orders" } := by
  constructor
  · decide
  · decide

/-- prep2 keeps the configuration, the prompts and every command flag it
does not explicitly default. -/
theorem prep2_preserved (st : PrepState) :
    (prep2 st).cfg = st.cfg ∧ (prep2 st).prompts = st.prompts ∧
    (prep2 st).c.pull = st.c.pull ∧ (prep2 st).c.delivery = st.c.delivery ∧
    (prep2 st).c.acceptDefaults = st.c.acceptDefaults ∧
    (prep2 st).c.filterSubjects = st.c.filterSubjects ∧
    (prep2 st).c.backoffMode = st.c.backoffMode := by
  unfold prep2
  split
  · exact ⟨rfl, rfl, rfl, rfl, rfl, rfl, rfl⟩
  · refine ⟨rfl, rfl, ?_, ?_, ?_, ?_, ?_⟩ <;>
      simp only [apply_ite (fun c : ConsumerCmd => c.pull),
        apply_ite (fun c : ConsumerCmd => c.delivery),
        apply_ite (fun c : ConsumerCmd => c.acceptDefaults),
        apply_ite (fun c : ConsumerCmd => c.filterSubjects),
        apply_ite (fun c : ConsumerCmd => c.backoffMode), ite_self]

/-- prep2 under acceptDefaults resolves an unset ack policy from the pull
flag and the delivery target. -/
theorem prep2_ackPolicy (st : PrepState) (had : st.c.acceptDefaults = true)
    (hap : st.c.ackPolicy = "") :
    (prep2 st).c.ackPolicy =
      (if st.c.pull ∨ st.c.delivery = "" then "explicit" else "none") := by
  unfold prep2
  rw [if_neg (by simp [had])]
  simp only [apply_ite (fun c : ConsumerCmd => c.ackPolicy),
    apply_ite (fun c : ConsumerCmd => c.pull),
    apply_ite (fun c : ConsumerCmd => c.delivery), ite_self, hap]
  split_ifs <;> simp_all

/-- prep2 under acceptDefaults resolves an unset maximum deliveries to
the unlimited sentinel. -/
theorem prep2_maxDeliver (st : PrepState) (had : st.c.acceptDefaults = true)
    (hmd : st.c.maxDeliver = 0) :
    (prep2 st).c.maxDeliver = -1 := by
  unfold prep2
  rw [if_neg (by simp [had])]
  simp only [apply_ite (fun c : ConsumerCmd => c.maxDeliver), ite_self, hmd]
  split_ifs <;> simp_all

/-- prep1 leaves every flag but the consumer name and the delivery target
unchanged; the delivery subject of the configuration equals the resolved
delivery target. -/
theorem prep1_shape (ans : PromptAnswers) (st st' : PrepState)
    (h : prep1 ans st = .ok st') :
    st'.c.acceptDefaults = st.c.acceptDefaults ∧
    st'.c.ackPolicy = st.c.ackPolicy ∧
    st'.c.pull = st.c.pull ∧
    st'.c.maxDeliver = st.c.maxDeliver ∧
    st'.c.filterSubjects = st.c.filterSubjects ∧
    st'.c.backoffMode = st.c.backoffMode ∧
    st'.cfg.deliverSubject = st'.c.delivery ∧
    st'.cfg.filterSubject = st.cfg.filterSubject ∧
    st'.cfg.backoff = st.cfg.backoff ∧
    st'.cfg.deliverPolicy = st.cfg.deliverPolicy ∧
    st'.cfg.maxDeliver = st.cfg.maxDeliver ∧
    st'.cfg.ackPolicy = st.cfg.ackPolicy := by
  simp only [prep1] at h
  repeat' split at h
  all_goals
    first
      | exact Except.noConfusion h
      | (injection h with h; subst h;
         exact ⟨rfl, rfl, rfl, rfl, rfl, rfl, rfl, rfl, rfl, rfl, rfl, rfl⟩)

/-- prep3 changes only the delivery group fields. -/
theorem prep3_shape (ans : PromptAnswers) (st : PrepState) :
    (prep3 ans st).c.acceptDefaults = st.c.acceptDefaults ∧
    (prep3 ans st).c.ackPolicy = st.c.ackPolicy ∧
    (prep3 ans st).c.pull = st.c.pull ∧
    (prep3 ans st).c.delivery = st.c.delivery ∧
    (prep3 ans st).c.maxDeliver = st.c.maxDeliver ∧
    (prep3 ans st).c.filterSubjects = st.c.filterSubjects ∧
    (prep3 ans st).c.backoffMode = st.c.backoffMode ∧
    (prep3 ans st).c.startPolicy = st.c.startPolicy ∧
    (prep3 ans st).cfg.deliverSubject = st.cfg.deliverSubject ∧
    (prep3 ans st).cfg.filterSubject = st.cfg.filterSubject ∧
    (prep3 ans st).cfg.backoff = st.cfg.backoff ∧
    (prep3 ans st).cfg.deliverPolicy = st.cfg.deliverPolicy ∧
    (prep3 ans st).cfg.maxDeliver = st.cfg.maxDeliver ∧
    (prep3 ans st).cfg.ackPolicy = st.cfg.ackPolicy := by
  simp only [prep3]
  split_ifs <;>
    exact ⟨rfl, rfl, rfl, rfl, rfl, rfl, rfl, rfl, rfl, rfl, rfl, rfl, rfl, rfl⟩

/-- setStartPolicy changes only the deliver policy and the start
position. -/
theorem setStartPolicy_shape (parseDur : String → Option Duration) (now : Int)
    (cfg cfg' : ConsumerConfig) (p : String)
    (h : setStartPolicy parseDur now cfg p = .ok cfg') :
    cfg'.deliverSubject = cfg.deliverSubject ∧
    cfg'.filterSubject = cfg.filterSubject ∧
    cfg'.backoff = cfg.backoff ∧
    cfg'.maxDeliver = cfg.maxDeliver ∧
    cfg'.ackPolicy = cfg.ackPolicy := by
  simp only [setStartPolicy] at h
  repeat' split at h
  all_goals
    first
      | exact Except.noConfusion h
      | (injection h with h; subst h; exact ⟨rfl, rfl, rfl, rfl, rfl⟩)

/-- prep4 changes only the start policy flag and the deliver policy and
start position of the configuration. -/
theorem prep4_shape (ans : PromptAnswers) (parseDur : String → Option Duration)
    (now : Int) (st st' : PrepState) (h : prep4 ans parseDur now st = .ok st') :
    st'.c.acceptDefaults = st.c.acceptDefaults ∧
    st'.c.ackPolicy = st.c.ackPolicy ∧
    st'.c.pull = st.c.pull ∧
    st'.c.delivery = st.c.delivery ∧
    st'.c.maxDeliver = st.c.maxDeliver ∧
    st'.c.filterSubjects = st.c.filterSubjects ∧
    st'.c.backoffMode = st.c.backoffMode ∧
    st'.cfg.deliverSubject = st.cfg.deliverSubject ∧
    st'.cfg.filterSubject = st.cfg.filterSubject ∧
    st'.cfg.backoff = st.cfg.backoff ∧
    st'.cfg.maxDeliver = st.cfg.maxDeliver ∧
    st'.cfg.ackPolicy = st.cfg.ackPolicy := by
  by_cases hp : st.c.startPolicy = ""
  · simp only [prep4, if_pos hp] at h
    split at h
    · exact Except.noConfusion h
    · rename_i cfg2 heq
      injection h with h
      subst h
      obtain ⟨e1, e2, e3, e4, e5⟩ := setStartPolicy_shape _ _ _ _ _ heq
      exact ⟨rfl, rfl, rfl, rfl, rfl, rfl, rfl, e1, e2, e3, e4, e5⟩
  · simp only [prep4, if_neg hp] at h
    split at h
    · exact Except.noConfusion h
    · rename_i cfg2 heq
      injection h with h
      subst h
      obtain ⟨e1, e2, e3, e4, e5⟩ := setStartPolicy_shape _ _ _ _ _ heq
      exact ⟨rfl, rfl, rfl, rfl, rfl, rfl, rfl, e1, e2, e3, e4, e5⟩

/-- The prompt stage of prep5 touches only the two policy strings and
the prompt list. -/
theorem prep5prompts_shape (ans : PromptAnswers) (st : PrepState) :
    (prep5prompts ans st).cfg = st.cfg ∧
    (prep5prompts ans st).c.acceptDefaults = st.c.acceptDefaults ∧
    (prep5prompts ans st).c.filterSubjects = st.c.filterSubjects ∧
    (prep5prompts ans st).c.backoffMode = st.c.backoffMode ∧
    (prep5prompts ans st).c.maxDeliver = st.c.maxDeliver ∧
    (prep5prompts ans st).c.ackPolicy =
      (if st.c.ackPolicy = "" then ans.ackPolicy else st.c.ackPolicy) := by
  simp only [prep5prompts]
  split_ifs <;> simp_all

/-- The resolution stage of prep5 only resolves the ack policy and
rejects a pull consumer with ack policy none. -/
theorem prep5check_shape (st st' : PrepState) (h : prep5check st = .ok st') :
    st'.cfg.deliverSubject = st.cfg.deliverSubject ∧
    st'.cfg.deliverPolicy = st.cfg.deliverPolicy ∧
    st'.cfg.filterSubject = st.cfg.filterSubject ∧
    st'.cfg.backoff = st.cfg.backoff ∧
    st'.cfg.maxDeliver = st.cfg.maxDeliver ∧
    st'.c = st.c ∧
    ackPolicyFromString st.c.ackPolicy = .ok st'.cfg.ackPolicy ∧
    ¬(st'.cfg.ackPolicy = AckPolicy.ackNone ∧ st'.cfg.deliverSubject = "") := by
  simp only [prep5check] at h
  repeat' split at h
  all_goals
    first
      | exact Except.noConfusion h
      | (injection h with h; subst h;
         refine ⟨rfl, rfl, rfl, rfl, rfl, rfl, ?_, ?_⟩ <;> simp_all)

/-- The none stage of prep5 only rewrites the deliveries bound, and only
when the ack policy is none. -/
theorem prep5none_shape (st : PrepState) :
    (prep5none st).cfg.deliverSubject = st.cfg.deliverSubject ∧
    (prep5none st).cfg.deliverPolicy = st.cfg.deliverPolicy ∧
    (prep5none st).cfg.filterSubject = st.cfg.filterSubject ∧
    (prep5none st).cfg.backoff = st.cfg.backoff ∧
    (prep5none st).cfg.ackPolicy = st.cfg.ackPolicy ∧
    (prep5none st).c = st.c ∧
    (prep5none st).cfg.maxDeliver =
      (if st.cfg.ackPolicy = AckPolicy.ackNone then -1 else st.cfg.maxDeliver) := by
  simp only [prep5none]
  split_ifs <;> simp_all

/-- The ack wait stage of prep5 only writes the ack wait. -/
theorem prep5wait_shape (st : PrepState) :
    (prep5wait st).cfg.deliverSubject = st.cfg.deliverSubject ∧
    (prep5wait st).cfg.deliverPolicy = st.cfg.deliverPolicy ∧
    (prep5wait st).cfg.filterSubject = st.cfg.filterSubject ∧
    (prep5wait st).cfg.backoff = st.cfg.backoff ∧
    (prep5wait st).cfg.ackPolicy = st.cfg.ackPolicy ∧
    (prep5wait st).cfg.maxDeliver = st.cfg.maxDeliver ∧
    (prep5wait st).c = st.c := by
  simp only [prep5wait]
  split_ifs <;> exact ⟨rfl, rfl, rfl, rfl, rfl, rfl, rfl⟩

/-- The sampling stage of prep5 only writes the sampling frequency. -/
theorem prep5sample_shape (st st' : PrepState) (h : prep5sample st = .ok st') :
    st'.cfg.deliverSubject = st.cfg.deliverSubject ∧
    st'.cfg.deliverPolicy = st.cfg.deliverPolicy ∧
    st'.cfg.filterSubject = st.cfg.filterSubject ∧
    st'.cfg.backoff = st.cfg.backoff ∧
    st'.cfg.ackPolicy = st.cfg.ackPolicy ∧
    st'.cfg.maxDeliver = st.cfg.maxDeliver ∧
    st'.c = st.c := by
  simp only [prep5sample] at h
  repeat' split at h
  all_goals
    first
      | exact Except.noConfusion h
      | (injection h with h; subst h; exact ⟨rfl, rfl, rfl, rfl, rfl, rfl, rfl⟩)

/-- prep5 resolves the ack policy and rejects pull mode with ack policy
none; it leaves the mode, filter, backoff and max-deliver flags
unchanged, and a resolved ack policy of none forces unlimited
deliveries. -/
theorem prep5_shape (ans : PromptAnswers) (st st' : PrepState)
    (h : prep5 ans st = .ok st') :
    st'.cfg.deliverSubject = st.cfg.deliverSubject ∧
    st'.cfg.deliverPolicy = st.cfg.deliverPolicy ∧
    st'.cfg.filterSubject = st.cfg.filterSubject ∧
    st'.cfg.backoff = st.cfg.backoff ∧
    st'.c.acceptDefaults = st.c.acceptDefaults ∧
    st'.c.filterSubjects = st.c.filterSubjects ∧
    st'.c.backoffMode = st.c.backoffMode ∧
    st'.c.maxDeliver = st.c.maxDeliver ∧
    (¬(st'.cfg.ackPolicy = AckPolicy.ackNone ∧ st'.cfg.deliverSubject = "")) ∧
    (st'.cfg.ackPolicy = AckPolicy.ackNone → st'.cfg.maxDeliver = -1) ∧
    ackPolicyFromString (if st.c.ackPolicy = "" then ans.ackPolicy else st.c.ackPolicy) =
      .ok st'.cfg.ackPolicy := by
  simp only [prep5] at h
  split at h
  · exact Except.noConfusion h
  · rename_i st1 heq
    obtain ⟨p1, p2, p3, p4, p5, p6⟩ := prep5prompts_shape ans st
    obtain ⟨k1, k2, k3, k4, k5, k6, k7, k8⟩ := prep5check_shape _ _ heq
    obtain ⟨n1, n2, n3, n4, n5, n6, n7⟩ := prep5none_shape st1
    obtain ⟨w1, w2, w3, w4, w5, w6, w7⟩ := prep5wait_shape (prep5none st1)
    obtain ⟨s1, s2, s3, s4, s5, s6, s7⟩ := prep5sample_shape _ _ h
    have hap : st'.cfg.ackPolicy = st1.cfg.ackPolicy := by rw [s5, w5, n5]
    have hds : st'.cfg.deliverSubject = st.cfg.deliverSubject := by
      rw [s1, w1, n1, k1, p1]
    have hc1 : st'.c = st1.c := by rw [s7, w7, n6]
    refine ⟨hds, by rw [s2, w2, n2, k2, p1], by rw [s3, w3, n3, k3, p1],
      by rw [s4, w4, n4, k4, p1], by rw [hc1, k6, p2], by rw [hc1, k6, p3],
      by rw [hc1, k6, p4], by rw [hc1, k6, p5], ?_, ?_, ?_⟩
    · intro hcon
      refine k8 ⟨by rw [← hap]; exact hcon.1, ?_⟩
      rw [k1, p1, ← hds]
      exact hcon.2
    · intro hnone
      rw [hap] at hnone
      rw [s6, w6, n7, if_pos hnone]
    · rw [hap, ← k7, p6]

/-- prep6 changes only the replay policy. -/
theorem prep6_shape (ans : PromptAnswers) (st st' : PrepState)
    (h : prep6 ans st = .ok st') :
    st'.cfg.deliverSubject = st.cfg.deliverSubject ∧
    st'.cfg.deliverPolicy = st.cfg.deliverPolicy ∧
    st'.cfg.filterSubject = st.cfg.filterSubject ∧
    st'.cfg.backoff = st.cfg.backoff ∧
    st'.cfg.ackPolicy = st.cfg.ackPolicy ∧
    st'.cfg.maxDeliver = st.cfg.maxDeliver ∧
    st'.c.acceptDefaults = st.c.acceptDefaults ∧
    st'.c.filterSubjects = st.c.filterSubjects ∧
    st'.c.backoffMode = st.c.backoffMode ∧
    st'.c.maxDeliver = st.c.maxDeliver := by
  simp only [prep6] at h
  repeat' split at h
  all_goals
    first
      | exact Except.noConfusion h
      | (injection h with h; subst h;
         exact ⟨rfl, rfl, rfl, rfl, rfl, rfl, rfl, rfl, rfl, rfl⟩)

/-- prep7 changes only the filter fields. -/
theorem prep7_shape (ans : PromptAnswers) (st : PrepState) :
    (prep7 ans st).cfg.deliverSubject = st.cfg.deliverSubject ∧
    (prep7 ans st).cfg.deliverPolicy = st.cfg.deliverPolicy ∧
    (prep7 ans st).cfg.backoff = st.cfg.backoff ∧
    (prep7 ans st).cfg.ackPolicy = st.cfg.ackPolicy ∧
    (prep7 ans st).cfg.maxDeliver = st.cfg.maxDeliver ∧
    (prep7 ans st).c.acceptDefaults = st.c.acceptDefaults ∧
    (prep7 ans st).c.backoffMode = st.c.backoffMode ∧
    (prep7 ans st).c.maxDeliver = st.c.maxDeliver := by
  simp only [prep7]
  split_ifs <;> exact ⟨rfl, rfl, rfl, rfl, rfl, rfl, rfl, rfl⟩

/-- prep7 applies the all-subjects wildcard when the filter prompt was
skipped by acceptDefaults, no filter flag was given and the deliver
policy is last per subject. -/
theorem prep7_wildcard (ans : PromptAnswers) (st : PrepState)
    (had : st.c.acceptDefaults = true) (hfs : st.c.filterSubjects = [])
    (hempty : st.cfg.filterSubject = "")
    (hdp : st.cfg.deliverPolicy = DeliverPolicy.lastPerSubject) :
    (prep7 ans st).cfg.filterSubject = ">" := by
  simp [prep7, had, hfs, hempty, hdp]

/-- prep8 changes no configuration field and leaves a non-zero
max-deliver flag alone. -/
theorem prep8_shape (ans : PromptAnswers) (st : PrepState) :
    (prep8 ans st).cfg = st.cfg ∧
    (prep8 ans st).c.acceptDefaults = st.c.acceptDefaults ∧
    (prep8 ans st).c.filterSubjects = st.c.filterSubjects ∧
    (prep8 ans st).c.backoffMode = st.c.backoffMode ∧
    (st.c.maxDeliver ≠ 0 → (prep8 ans st).c.maxDeliver = st.c.maxDeliver) := by
  simp only [prep8]
  split_ifs <;> refine ⟨rfl, rfl, rfl, rfl, fun hm => ?_⟩ <;> simp_all

/-- The heartbeat step changes only the heartbeat field. -/
theorem prep9hb_shape (ans : PromptAnswers) (parseDur : String → Option Duration)
    (st st' : PrepState) (h : prep9hb ans parseDur st = .ok st') :
    st'.cfg.deliverSubject = st.cfg.deliverSubject ∧
    st'.cfg.deliverPolicy = st.cfg.deliverPolicy ∧
    st'.cfg.filterSubject = st.cfg.filterSubject ∧
    st'.cfg.backoff = st.cfg.backoff ∧
    st'.cfg.ackPolicy = st.cfg.ackPolicy ∧
    st'.cfg.maxDeliver = st.cfg.maxDeliver ∧
    st'.c = st.c := by
  simp only [prep9hb] at h
  repeat' split at h
  all_goals
    first
      | exact Except.noConfusion h
      | (injection h with h; subst h;
         exact ⟨rfl, rfl, rfl, rfl, rfl, rfl, rfl⟩)

/-- prep9 changes only the heartbeat, flow control and the fc flag. -/
theorem prep9_shape (ans : PromptAnswers) (parseDur : String → Option Duration)
    (st st' : PrepState) (h : prep9 ans parseDur st = .ok st') :
    st'.cfg.deliverSubject = st.cfg.deliverSubject ∧
    st'.cfg.deliverPolicy = st.cfg.deliverPolicy ∧
    st'.cfg.filterSubject = st.cfg.filterSubject ∧
    st'.cfg.backoff = st.cfg.backoff ∧
    st'.cfg.ackPolicy = st.cfg.ackPolicy ∧
    st'.cfg.maxDeliver = st.cfg.maxDeliver ∧
    st'.c.acceptDefaults = st.c.acceptDefaults ∧
    st'.c.backoffMode = st.c.backoffMode ∧
    st'.c.maxDeliver = st.c.maxDeliver := by
  simp only [prep9] at h
  split at h
  · exact Except.noConfusion h
  · rename_i st1 heq
    obtain ⟨e1, e2, e3, e4, e5, e6, e7⟩ := prep9hb_shape _ _ _ _ heq
    repeat' split at h
    all_goals
      first
        | exact Except.noConfusion h
        | (injection h with h; subst h;
           exact ⟨by rw [e1], by rw [e2], by rw [e3], by rw [e4], by rw [e5], by rw [e6],
             by rw [e7], by rw [e7], by rw [e7]⟩)

/-- prep10 changes only the headers-only fields. -/
theorem prep10_shape (ans : PromptAnswers) (st : PrepState) :
    (prep10 ans st).cfg.deliverSubject = st.cfg.deliverSubject ∧
    (prep10 ans st).cfg.deliverPolicy = st.cfg.deliverPolicy ∧
    (prep10 ans st).cfg.filterSubject = st.cfg.filterSubject ∧
    (prep10 ans st).cfg.backoff = st.cfg.backoff ∧
    (prep10 ans st).cfg.ackPolicy = st.cfg.ackPolicy ∧
    (prep10 ans st).cfg.maxDeliver = st.cfg.maxDeliver ∧
    (prep10 ans st).c.acceptDefaults = st.c.acceptDefaults ∧
    (prep10 ans st).c.backoffMode = st.c.backoffMode ∧
    (prep10 ans st).c.maxDeliver = st.c.maxDeliver := by
  simp only [prep10]
  split_ifs <;> exact ⟨rfl, rfl, rfl, rfl, rfl, rfl, rfl, rfl, rfl⟩

/-- The interactive backoff questionnaire never touches the configuration
record or the max-deliver flag. -/
theorem askBackoffPolicy_shape (ans : PromptAnswers) (parseDur : String → Option Duration)
    (st st' : PrepState) (h : askBackoffPolicy ans parseDur st = .ok st') :
    st'.cfg = st.cfg ∧ st'.c.maxDeliver = st.c.maxDeliver ∧
    st'.c.acceptDefaults = st.c.acceptDefaults := by
  simp only [askBackoffPolicy] at h
  repeat' split at h
  all_goals
    first
      | exact Except.noConfusion h
      | (injection h with h; subst h; exact ⟨rfl, rfl, rfl⟩)

/-- prep11 either leaves the backoff schedule and the max-deliver flag
unchanged (no backoff mode in play) or stores the generated schedule and,
exactly when the max-deliver flag sits at the unlimited sentinel and the
schedule is non-empty, bumps the flag to the schedule length plus one. -/
theorem prep11_core (ans : PromptAnswers) (parseDur : String → Option Duration)
    (st st' : PrepState) (had : st.c.acceptDefaults = true)
    (h : prep11 ans parseDur st = .ok st') :
    st'.cfg.deliverSubject = st.cfg.deliverSubject ∧
    st'.cfg.deliverPolicy = st.cfg.deliverPolicy ∧
    st'.cfg.filterSubject = st.cfg.filterSubject ∧
    st'.cfg.ackPolicy = st.cfg.ackPolicy ∧
    st'.cfg.maxDeliver = st.cfg.maxDeliver ∧
    ((st'.cfg.backoff = st.cfg.backoff ∧ st'.c.maxDeliver = st.c.maxDeliver) ∨
     (backoffPolicy st.c = .ok st'.cfg.backoff ∧
      ((st.c.maxDeliver = -1 ∧ st'.cfg.backoff ≠ []) →
         st'.c.maxDeliver = Int.ofNat st'.cfg.backoff.length + 1) ∧
      (¬(st.c.maxDeliver = -1 ∧ st'.cfg.backoff ≠ []) →
         st'.c.maxDeliver = st.c.maxDeliver))) := by
  have hcond : ¬(¬(st.c.acceptDefaults = true) ∧ st.c.backoffMode = "") := by
    simp [had]
  unfold prep11 at h
  rw [if_neg hcond] at h
  dsimp only at h
  repeat' split at h
  all_goals
    first
      | exact Except.noConfusion h
      | (injection h with h; subst h;
         refine ⟨rfl, rfl, rfl, rfl, rfl, ?_⟩
         first
           | exact Or.inl ⟨rfl, rfl⟩
           | (refine Or.inr ⟨?_, ?_, ?_⟩ <;> simp_all [List.length_pos]))

/-- prep11 never changes the mode, policy and filter fields. -/
theorem prep11_shape (ans : PromptAnswers) (parseDur : String → Option Duration)
    (st st' : PrepState) (h : prep11 ans parseDur st = .ok st') :
    st'.cfg.deliverSubject = st.cfg.deliverSubject ∧
    st'.cfg.deliverPolicy = st.cfg.deliverPolicy ∧
    st'.cfg.filterSubject = st.cfg.filterSubject ∧
    st'.cfg.ackPolicy = st.cfg.ackPolicy ∧
    st'.cfg.maxDeliver = st.cfg.maxDeliver := by
  simp only [prep11] at h
  split at h
  · exact Except.noConfusion h
  · rename_i st1 heq
    have hst1 : st1.cfg = st.cfg := by
      split at heq
      · obtain ⟨e1, _, _⟩ := askBackoffPolicy_shape _ _ _ _ heq
        exact e1
      · injection heq with heq
        subst heq
        rfl
    repeat' split at h
    all_goals
      first
        | exact Except.noConfusion h
        | (injection h with h; subst h; simp_all)

/-- Decomposition of a successful flag- and prompt-driven derivation into
its stages. -/
theorem prepareConfig_decomp (c : ConsumerCmd) (ans : PromptAnswers)
    (parseDur : String → Option Duration) (now : Int) (r : PrepResult)
    (hif : c.inputFile = none)
    (h : prepareConfig c ans parseDur now = .ok r) :
    ∃ s1 s4 s5 s6 s9 s11 s12 : PrepState,
      prep1 ans { c := c, cfg := { defaultConsumer with description := c.description },
                  prompts := [] } = .ok s1 ∧
      prep4 ans parseDur now (prep3 ans (prep2 s1)) = .ok s4 ∧
      prep5 ans s4 = .ok s5 ∧
      prep6 ans s5 = .ok s6 ∧
      prep9 ans parseDur (prep8 ans (prep7 ans s6)) = .ok s9 ∧
      prep11 ans parseDur (prep10 ans s9) = .ok s11 ∧
      prep12 s11 = .ok s12 ∧
      r = { cfg := s12.cfg, prompts := s12.prompts } := by
  simp only [prepareConfig, hif] at h
  obtain ⟨s1, h1, h⟩ := except_bind_ok h
  obtain ⟨s4, h4, h⟩ := except_bind_ok h
  obtain ⟨s5, h5, h⟩ := except_bind_ok h
  obtain ⟨s6, h6, h⟩ := except_bind_ok h
  obtain ⟨s9, h9, h⟩ := except_bind_ok h
  obtain ⟨s11, h11, h⟩ := except_bind_ok h
  obtain ⟨s12, h12, h⟩ := except_bind_ok h
  injection h with h
  exact ⟨s1, s4, s5, s6, s9, s11, s12, h1, h4, h5, h6, h9, h11, h12, h.symm⟩

/-- The pending stage of prep12 keeps the mode, policy, filter, backoff
and deliveries fields and the flags the later stages read. -/
theorem prep12pending_shape (st : PrepState) :
    (prep12pending st).cfg.deliverSubject = st.cfg.deliverSubject ∧
    (prep12pending st).cfg.deliverPolicy = st.cfg.deliverPolicy ∧
    (prep12pending st).cfg.filterSubject = st.cfg.filterSubject ∧
    (prep12pending st).cfg.backoff = st.cfg.backoff ∧
    (prep12pending st).cfg.ackPolicy = st.cfg.ackPolicy ∧
    (prep12pending st).cfg.maxDeliver = st.cfg.maxDeliver ∧
    (prep12pending st).c.maxDeliver = st.c.maxDeliver := by
  simp only [prep12pending]
  split_ifs <;> simp_all

/-- The limits stage of prep12 keeps the same fields. -/
theorem prep12limits_shape (st : PrepState) :
    (prep12limits st).cfg.deliverSubject = st.cfg.deliverSubject ∧
    (prep12limits st).cfg.deliverPolicy = st.cfg.deliverPolicy ∧
    (prep12limits st).cfg.filterSubject = st.cfg.filterSubject ∧
    (prep12limits st).cfg.backoff = st.cfg.backoff ∧
    (prep12limits st).cfg.ackPolicy = st.cfg.ackPolicy ∧
    (prep12limits st).cfg.maxDeliver = st.cfg.maxDeliver ∧
    (prep12limits st).c = st.c := by
  simp only [prep12limits]
  split_ifs <;> simp_all

/-- The waiting stage of prep12 keeps the same fields. -/
theorem prep12waiting_shape (st : PrepState) :
    (prep12waiting st).cfg.deliverSubject = st.cfg.deliverSubject ∧
    (prep12waiting st).cfg.deliverPolicy = st.cfg.deliverPolicy ∧
    (prep12waiting st).cfg.filterSubject = st.cfg.filterSubject ∧
    (prep12waiting st).cfg.backoff = st.cfg.backoff ∧
    (prep12waiting st).cfg.ackPolicy = st.cfg.ackPolicy ∧
    (prep12waiting st).cfg.maxDeliver = st.cfg.maxDeliver ∧
    (prep12waiting st).c = st.c := by
  simp only [prep12waiting]
  split_ifs <;> simp_all

/-- The deliveries stage of prep12 writes the configured bound exactly
when the flag is non-zero and the ack policy is not none. -/
theorem prep12maxdeliver_shape (st : PrepState) :
    (prep12maxdeliver st).cfg.deliverSubject = st.cfg.deliverSubject ∧
    (prep12maxdeliver st).cfg.deliverPolicy = st.cfg.deliverPolicy ∧
    (prep12maxdeliver st).cfg.filterSubject = st.cfg.filterSubject ∧
    (prep12maxdeliver st).cfg.backoff = st.cfg.backoff ∧
    (prep12maxdeliver st).cfg.ackPolicy = st.cfg.ackPolicy ∧
    (prep12maxdeliver st).c = st.c ∧
    (prep12maxdeliver st).cfg.maxDeliver =
      (if st.c.maxDeliver ≠ 0 ∧ st.cfg.ackPolicy ≠ AckPolicy.ackNone then st.c.maxDeliver
       else st.cfg.maxDeliver) := by
  simp only [prep12maxdeliver]
  split_ifs <;> simp_all

/-- The final stage of prep12 keeps the same fields. -/
theorem prep12final_shape (st : PrepState) :
    (prep12final st).cfg.deliverSubject = st.cfg.deliverSubject ∧
    (prep12final st).cfg.deliverPolicy = st.cfg.deliverPolicy ∧
    (prep12final st).cfg.filterSubject = st.cfg.filterSubject ∧
    (prep12final st).cfg.backoff = st.cfg.backoff ∧
    (prep12final st).cfg.ackPolicy = st.cfg.ackPolicy ∧
    (prep12final st).cfg.maxDeliver = st.cfg.maxDeliver := by
  simp only [prep12final]
  split_ifs <;> simp_all

/-- prep12 keeps the mode, policy, filter and backoff fields; the final
max-deliver is the flag value exactly when the flag is non-zero and the
ack policy is not none, and the carried value otherwise. -/
theorem prep12_shape (st st' : PrepState) (h : prep12 st = .ok st') :
    st'.cfg.deliverSubject = st.cfg.deliverSubject ∧
    st'.cfg.deliverPolicy = st.cfg.deliverPolicy ∧
    st'.cfg.filterSubject = st.cfg.filterSubject ∧
    st'.cfg.backoff = st.cfg.backoff ∧
    st'.cfg.ackPolicy = st.cfg.ackPolicy ∧
    st'.cfg.maxDeliver =
      (if st.c.maxDeliver ≠ 0 ∧ st.cfg.ackPolicy ≠ AckPolicy.ackNone then st.c.maxDeliver
       else st.cfg.maxDeliver) := by
  simp only [prep12] at h
  obtain ⟨a1, a2, a3, a4, a5, a6, a7⟩ := prep12pending_shape st
  obtain ⟨b1, b2, b3, b4, b5, b6, b7⟩ := prep12limits_shape (prep12pending st)
  obtain ⟨c1, c2, c3, c4, c5, c6, c7⟩ :=
    prep12waiting_shape (prep12limits (prep12pending st))
  obtain ⟨d1, d2, d3, d4, d5, d6, d7⟩ :=
    prep12maxdeliver_shape (prep12waiting (prep12limits (prep12pending st)))
  obtain ⟨f1, f2, f3, f4, f5, f6⟩ :=
    prep12final_shape
      (prep12maxdeliver (prep12waiting (prep12limits (prep12pending st))))
  split at h
  · exact Except.noConfusion h
  · injection h with h
    subst h
    refine ⟨by rw [f1, d1, c1, b1, a1], by rw [f2, d2, c2, b2, a2],
      by rw [f3, d3, c3, b3, a3], by rw [f4, d4, c4, b4, a4],
      by rw [f5, d5, c5, b5, a5], ?_⟩
    simp only [f6, d7, c7, b7, a7, c5, b5, a5, c6, b6, a6]

/-- Resolution of the literal ack policy strings. -/
theorem ackPolicyFromString_explicit : ackPolicyFromString "explicit" = .ok .ackExplicit := by
  decide

/-- Resolution of the literal none ack policy string. -/
theorem ackPolicyFromString_none : ackPolicyFromString "none" = .ok .ackNone := by
  decide

/-- C6 (amended): for flag- and prompt-driven derivations (no
configuration file): with acceptDefaults and no explicit ack policy the
resolved ack policy is none exactly when a delivery target is present and
pull mode was not requested, and explicit otherwise; a derived pull-mode
configuration (empty delivery target) never carries ack policy none; and
a resolved ack policy of none forces unlimited deliveries. -/
theorem c6_ack_policy_rules (c : ConsumerCmd) (ans : PromptAnswers)
    (parseDur : String → Option Duration) (now : Int) (r : PrepResult)
    (hif : c.inputFile = none)
    (h : prepareConfig c ans parseDur now = .ok r) :
    (c.acceptDefaults = true → c.ackPolicy = "" →
      r.cfg.ackPolicy =
        (if c.pull ∨ r.cfg.deliverSubject = "" then AckPolicy.ackExplicit
         else AckPolicy.ackNone)) ∧
    ¬(r.cfg.ackPolicy = AckPolicy.ackNone ∧ r.cfg.deliverSubject = "") ∧
    (r.cfg.ackPolicy = AckPolicy.ackNone → r.cfg.maxDeliver = -1) := by
  obtain ⟨s1, s4, s5, s6, s9, s11, s12, h1, h4, h5, h6, h9, h11, h12, hr⟩ :=
    prepareConfig_decomp c ans parseDur now r hif h
  subst hr
  obtain ⟨a1, a2, a3, a4, a5, a6, a7, a8, a9, a10, a11, a12⟩ := prep1_shape _ _ _ h1
  obtain ⟨b1, b2, b3, b4, b5, b6, b7⟩ := prep2_preserved s1
  obtain ⟨c1, c2, c3, c4, c5, c6, c7, c8, c9, c10, c11, c12, c13, c14⟩ :=
    prep3_shape ans (prep2 s1)
  obtain ⟨d1, d2, d3, d4, d5, d6, d7, d8, d9, d10, d11, d12⟩ := prep4_shape _ _ _ _ _ h4
  obtain ⟨e1, e2, e3, e4, e5, e6, e7, e8, e9, e10, e11⟩ := prep5_shape _ _ _ h5
  obtain ⟨f1, f2, f3, f4, f5, f6, f7, f8, f9, f10⟩ := prep6_shape _ _ _ h6
  obtain ⟨g1, g2, g3, g4, g5, g6, g7, g8⟩ := prep7_shape ans s6
  obtain ⟨i1, i2, i3, i4, i5⟩ := prep8_shape ans (prep7 ans s6)
  obtain ⟨j1, j2, j3, j4, j5, j6, j7, j8, j9⟩ := prep9_shape _ _ _ _ h9
  obtain ⟨k1, k2, k3, k4, k5, k6, k7, k8, k9⟩ := prep10_shape ans s9
  obtain ⟨l1, l2, l3, l4, l5⟩ := prep11_shape _ _ _ _ h11
  obtain ⟨m1, m2, m3, m4, m5, m6⟩ := prep12_shape _ _ h12
  have hds5 : s12.cfg.deliverSubject = s5.cfg.deliverSubject := by
    rw [m1, l1, k1, j1, i1, g1, f1]
  have hds : s12.cfg.deliverSubject = s1.c.delivery := by
    rw [hds5, e1, d8, c9, b1, a7]
  have hap : s12.cfg.ackPolicy = s5.cfg.ackPolicy := by
    rw [m5, l4, k5, j5, i1, g4, f5]
  refine ⟨?_, ?_, ?_⟩
  · intro had hap0
    have h2ap : (prep2 s1).c.ackPolicy =
        (if s1.c.pull ∨ s1.c.delivery = "" then "explicit" else "none") :=
      prep2_ackPolicy s1 (by rw [a1]; exact had) (by rw [a2]; exact hap0)
    have h4ap : s4.c.ackPolicy =
        (if s1.c.pull ∨ s1.c.delivery = "" then "explicit" else "none") := by
      rw [d2, c2, h2ap]
    by_cases hpd : s1.c.pull = true ∨ s1.c.delivery = ""
    · have hx : s4.c.ackPolicy = "explicit" := by rw [h4ap, if_pos hpd]
      have hres := e11
      rw [hx, if_neg (by decide : ¬("explicit" = "")), ackPolicyFromString_explicit] at hres
      injection hres with hres
      have h5x : s5.cfg.ackPolicy = AckPolicy.ackExplicit := hres.symm
      rw [show ({ cfg := s12.cfg, prompts := s12.prompts } : PrepResult).cfg = s12.cfg
        from rfl, hap, h5x, if_pos ?_]
      rcases hpd with hp | hd
      · exact Or.inl (by rw [← a3]; exact hp)
      · exact Or.inr (by rw [hds]; exact hd)
    · have hx : s4.c.ackPolicy = "none" := by rw [h4ap, if_neg hpd]
      have hres := e11
      rw [hx, if_neg (by decide : ¬("none" = "")), ackPolicyFromString_none] at hres
      injection hres with hres
      have h5x : s5.cfg.ackPolicy = AckPolicy.ackNone := hres.symm
      rw [show ({ cfg := s12.cfg, prompts := s12.prompts } : PrepResult).cfg = s12.cfg
        from rfl, hap, h5x, if_neg ?_]
      intro hcon
      apply hpd
      rcases hcon with hp | hd
      · exact Or.inl (by rw [a3]; exact hp)
      · exact Or.inr (by rw [← hds]; exact hd)
  · intro hcon
    apply e9
    exact ⟨hap.symm.trans hcon.1, hds5.symm.trans hcon.2⟩
  · intro hnone
    have h5none : s5.cfg.ackPolicy = AckPolicy.ackNone := hap.symm.trans hnone
    have h11ap : s11.cfg.ackPolicy = AckPolicy.ackNone := by
      rw [l4, k5, j5, i1, g4, f5]
      exact h5none
    show s12.cfg.maxDeliver = -1
    rw [m6, if_neg (fun hcc => hcc.2 h11ap)]
    rw [l5, k6, j6, i1, g5, f6]
    exact e10 h5none

/-- C5 (amended): in a defaults-accepting flag-driven derivation with
max-deliver left at its unset sentinel, a generated non-empty backoff
schedule sets the derived maximum deliveries to the schedule length plus
one, provided the resolved ack policy is not none. -/
theorem c5_generated_backoff_bumps_max_deliver (c : ConsumerCmd) (ans : PromptAnswers)
    (parseDur : String → Option Duration) (now : Int) (r : PrepResult)
    (hif : c.inputFile = none) (had : c.acceptDefaults = true) (hmd : c.maxDeliver = 0)
    (h : prepareConfig c ans parseDur now = .ok r)
    (hbo : r.cfg.backoff ≠ []) (hap : r.cfg.ackPolicy ≠ AckPolicy.ackNone) :
    r.cfg.maxDeliver = Int.ofNat r.cfg.backoff.length + 1 := by
  obtain ⟨s1, s4, s5, s6, s9, s11, s12, h1, h4, h5, h6, h9, h11, h12, hr⟩ :=
    prepareConfig_decomp c ans parseDur now r hif h
  subst hr
  obtain ⟨a1, a2, a3, a4, a5, a6, a7, a8, a9, a10, a11, a12⟩ := prep1_shape _ _ _ h1
  obtain ⟨b1, b2, b3, b4, b5, b6, b7⟩ := prep2_preserved s1
  obtain ⟨c1, c2, c3, c4, c5, c6, c7, c8, c9, c10, c11, c12, c13, c14⟩ :=
    prep3_shape ans (prep2 s1)
  obtain ⟨d1, d2, d3, d4, d5, d6, d7, d8, d9, d10, d11, d12⟩ := prep4_shape _ _ _ _ _ h4
  obtain ⟨e1, e2, e3, e4, e5, e6, e7, e8, e9, e10, e11⟩ := prep5_shape _ _ _ h5
  obtain ⟨f1, f2, f3, f4, f5, f6, f7, f8, f9, f10⟩ := prep6_shape _ _ _ h6
  obtain ⟨g1, g2, g3, g4, g5, g6, g7, g8⟩ := prep7_shape ans s6
  obtain ⟨i1, i2, i3, i4, i5⟩ := prep8_shape ans (prep7 ans s6)
  obtain ⟨j1, j2, j3, j4, j5, j6, j7, j8, j9⟩ := prep9_shape _ _ _ _ h9
  obtain ⟨k1, k2, k3, k4, k5, k6, k7, k8, k9⟩ := prep10_shape ans s9
  obtain ⟨m1, m2, m3, m4, m5, m6⟩ := prep12_shape _ _ h12
  have hadp : (prep10 ans s9).c.acceptDefaults = true := by
    rw [k7, j7, i2, g6, f7, e5, d1, c1, b5, a1]
    exact had
  have hmd2 : (prep2 s1).c.maxDeliver = -1 :=
    prep2_maxDeliver s1 (by rw [a1]; exact had) (by rw [a4]; exact hmd)
  have hmd7 : (prep7 ans s6).c.maxDeliver = -1 := by
    rw [g8, f10, e8, d5, c5, hmd2]
  have hmd8 : (prep8 ans (prep7 ans s6)).c.maxDeliver = -1 := by
    rw [i5 (by rw [hmd7]; decide), hmd7]
  have hmd10 : (prep10 ans s9).c.maxDeliver = -1 := by
    rw [k9, j9, hmd8]
  have hb10 : (prep10 ans s9).cfg.backoff = [] := by
    rw [k4, j4, i1, g3, f4, e4, d10, c11, b1, a9]
    rfl
  obtain ⟨n1, n2, n3, n4, n5, n6⟩ := prep11_core _ _ _ _ hadp h11
  have hrb : s12.cfg.backoff = s11.cfg.backoff := m4
  rcases n6 with ⟨hb, hm⟩ | ⟨hpol, himp1, himp2⟩
  · exact absurd (by rw [hrb, hb, hb10] : s12.cfg.backoff = []) hbo
  · have hm11 : s11.c.maxDeliver = Int.ofNat s11.cfg.backoff.length + 1 :=
      himp1 ⟨hmd10, by rw [← hrb]; exact hbo⟩
    have h11ap : s11.cfg.ackPolicy ≠ AckPolicy.ackNone := fun hh => hap (m5.trans hh)
    have hne : s11.c.maxDeliver ≠ 0 := by
      rw [hm11, Int.ofNat_eq_natCast]
      omega
    show s12.cfg.maxDeliver = _
    rw [m6, if_pos ⟨hne, h11ap⟩, hm11, hrb]

/-- C8 (amended): in a flag- and prompt-driven derivation where no filter
flag was given and acceptDefaults skips the filter prompt, a resolved
deliver policy of last-per-subject makes the derived filter subject the
all-subjects wildcard. -/
theorem c8_last_per_subject_wildcard (c : ConsumerCmd) (ans : PromptAnswers)
    (parseDur : String → Option Duration) (now : Int) (r : PrepResult)
    (hif : c.inputFile = none) (had : c.acceptDefaults = true)
    (hfs : c.filterSubjects = [])
    (h : prepareConfig c ans parseDur now = .ok r)
    (hdp : r.cfg.deliverPolicy = DeliverPolicy.lastPerSubject) :
    r.cfg.filterSubject = ">" := by
  obtain ⟨s1, s4, s5, s6, s9, s11, s12, h1, h4, h5, h6, h9, h11, h12, hr⟩ :=
    prepareConfig_decomp c ans parseDur now r hif h
  subst hr
  obtain ⟨a1, a2, a3, a4, a5, a6, a7, a8, a9, a10, a11, a12⟩ := prep1_shape _ _ _ h1
  obtain ⟨b1, b2, b3, b4, b5, b6, b7⟩ := prep2_preserved s1
  obtain ⟨c1, c2, c3, c4, c5, c6, c7, c8, c9, c10, c11, c12, c13, c14⟩ :=
    prep3_shape ans (prep2 s1)
  obtain ⟨d1, d2, d3, d4, d5, d6, d7, d8, d9, d10, d11, d12⟩ := prep4_shape _ _ _ _ _ h4
  obtain ⟨e1, e2, e3, e4, e5, e6, e7, e8, e9, e10, e11⟩ := prep5_shape _ _ _ h5
  obtain ⟨f1, f2, f3, f4, f5, f6, f7, f8, f9, f10⟩ := prep6_shape _ _ _ h6
  obtain ⟨i1, i2, i3, i4, i5⟩ := prep8_shape ans (prep7 ans s6)
  obtain ⟨j1, j2, j3, j4, j5, j6, j7, j8, j9⟩ := prep9_shape _ _ _ _ h9
  obtain ⟨k1, k2, k3, k4, k5, k6, k7, k8, k9⟩ := prep10_shape ans s9
  obtain ⟨l1, l2, l3, l4, l5⟩ := prep11_shape _ _ _ _ h11
  obtain ⟨m1, m2, m3, m4, m5, m6⟩ := prep12_shape _ _ h12
  obtain ⟨g1, g2, g3, g4, g5, g6, g7, g8⟩ := prep7_shape ans s6
  have hs6ad : s6.c.acceptDefaults = true := by
    rw [f7, e5, d1, c1, b5, a1]
    exact had
  have hs6fs : s6.c.filterSubjects = [] := by
    rw [f8, e6, d6, c6, b6, a5]
    exact hfs
  have hs6fe : s6.cfg.filterSubject = "" := by
    rw [f3, e3, d9, c10, b1, a8]
    rfl
  have hdp12 : s12.cfg.deliverPolicy = s6.cfg.deliverPolicy := by
    rw [m2, l2, k2, j2, i1, g2]
  have hs6dp : s6.cfg.deliverPolicy = DeliverPolicy.lastPerSubject :=
    hdp12.symm.trans hdp
  have hw := prep7_wildcard ans s6 hs6ad hs6fs hs6fe hs6dp
  have hchain : s12.cfg.filterSubject = (prep7 ans s6).cfg.filterSubject := by
    rw [m3, l3, k3, j3, i1]
  exact hchain.trans hw

/-- Bind of a successful Except value. -/
theorem except_ok_bind {α β γ : Type} (a : β) (f : β → Except α γ) :
    (Except.ok a >>= f : Except α γ) = f a := rfl

/-- Resolution of the literal instant replay policy string. -/
theorem replayPolicyFromString_instant :
    replayPolicyFromString "instant" = .ok .instant := by
  decide

/-- An answer environment with every answer blank. -/
def noAnswers : PromptAnswers :=
  { consumerName := ""
    deliveryTarget := ""
    deliveryGroup := ""
    startPolicy := ""
    ackPolicy := ""
    replayPolicy := ""
    replayPolicy2 := ""
    filterSubject := ""
    maxDeliver := 0
    maxAckPending := 0
    idleHeartbeat := ""
    flowControl := false
    headersOnly := false
    backoffAdd := false
    backoffMode := ""
    backoffMin := ""
    backoffMax := ""
    backoffSteps := 0 }

/-- The consumer add command with only a name argument and the defaults
flag: every other flag at its default value. -/
def addDefaultsCmd (name : String) : ConsumerCmd :=
  { addDefaults name with acceptDefaults := true }

/-- Data model invariant: the sampling frequency is unset or a rendered
percentage between 1 and 100. -/
def sampleFreqOk (s : String) : Prop :=
  s = "" ∨ ∃ n : Int, 0 < n ∧ n ≤ 100 ∧ s = toString n

/-- The state after the name and target prompts for the defaults-only
command: d is the resolved durable name, del the resolved delivery
target and ps the prompts issued so far. -/
def c7s1 (d del : String) (ps : List Prompt) : PrepState :=
  { c := { addDefaults d with acceptDefaults := true, delivery := del }
    cfg := { defaultConsumer with durable := d, deliverSubject := del }
    prompts := ps }

/-- prep1 on the defaults-only command resolves the durable name from the
argument or the name prompt and always prompts for the delivery target. -/
theorem c7_prep1 (name : String) (ans : PromptAnswers) (s1 : PrepState)
    (h : prep1 ans { c := addDefaultsCmd name,
                     cfg := { defaultConsumer with
                              description := (addDefaultsCmd name).description },
                     prompts := [] } = .ok s1) :
    s1 = c7s1 (if name = "" then ans.consumerName else name) ans.deliveryTarget
        ((if name = "" then [Prompt.consumerName] else []) ++ [Prompt.deliveryTarget]) := by
  simp only [prep1, addDefaultsCmd, addDefaults] at h
  repeat' split at h
  all_goals
    first
      | exact Except.noConfusion h
      | (injection h with h
         subst h
         simp_all [c7s1, addDefaults, defaultConsumer])

/-- C7 (amended): deriving with acceptDefaults and no overrides prompts
at most for the consumer name and the delivery target, and the derived
configuration satisfies the data model invariants: the two filter fields
are never both populated, pull mode carries no heartbeat or flow control,
push mode carries no pull limits, the sampling frequency is in range, and
ack policy none forces unlimited deliveries. -/
theorem c7_defaults_prompts_and_invariants (name : String) (ans : PromptAnswers)
    (parseDur : String → Option Duration) (now : Int) (r : PrepResult)
    (h : prepareConfig (addDefaultsCmd name) ans parseDur now = .ok r) :
    r.prompts ⊆ [Prompt.consumerName, Prompt.deliveryTarget] ∧
    (r.cfg.filterSubject = "" ∨ r.cfg.filterSubjects = []) ∧
    (r.cfg.deliverSubject = "" → r.cfg.heartbeat = 0 ∧ r.cfg.flowControl = false) ∧
    (r.cfg.deliverSubject ≠ "" →
      r.cfg.maxWaiting = 0 ∧ r.cfg.maxRequestBatch = 0 ∧
      r.cfg.maxRequestExpires = 0 ∧ r.cfg.maxRequestMaxBytes = 0) ∧
    sampleFreqOk r.cfg.sampleFrequency ∧
    (r.cfg.ackPolicy = AckPolicy.ackNone → r.cfg.maxDeliver = -1) := by
  obtain ⟨s1, s4, s5, s6, s9, s11, s12, h1, h4, h5, h6, h9, h11, h12, hr⟩ :=
    prepareConfig_decomp (addDefaultsCmd name) ans parseDur now r rfl h
  rw [c7_prep1 name ans s1 h1] at h4
  by_cases hdel : ans.deliveryTarget = "" <;>
    [rw [hdel] at h4; skip] <;>
    simp [c7s1, addDefaultsCmd, addDefaults, prep2, prep3, prep4, setStartPolicy,
      hdel] at h4 <;>
    subst h4 <;>
    simp [prep5, prep5prompts, prep5check, prep5none, prep5wait, prep5sample,
      ackPolicyFromString_explicit, ackPolicyFromString_none, second, hdel] at h5 <;>
    subst h5 <;>
    simp [prep6, replayPolicyFromString_instant, hdel] at h6 <;>
    subst h6 <;>
    simp [prep7, prep8, prep9, prep9hb, hdel] at h9 <;>
    subst h9 <;>
    simp [prep10, prep11, hdel] at h11 <;>
    subst h11 <;>
    simp [prep12, prep12pending, prep12limits, prep12waiting, prep12maxdeliver,
      prep12final, hdel] at h12 <;>
    subst h12 <;>
    subst hr <;>
    refine ⟨?_, Or.inl rfl, ?_, ?_, Or.inl rfl, ?_⟩ <;>
    intros <;>
    (try split_ifs) <;>
    simp_all [defaultConsumer]

/-- Answers for the C7 counterexample run. -/
def c7ExAns : PromptAnswers := { noAnswers with consumerName := "X" }

/-- C7 counterexample: with no name argument, no overrides and
acceptDefaults on, the derivation still issues the consumer name and
delivery target prompts, refuting that it never prompts. -/
theorem c7_counterexample :
    (prepareConfig (addDefaultsCmd "") c7ExAns (fun _ => none) 0).map PrepResult.prompts =
      .ok [Prompt.consumerName, Prompt.deliveryTarget] := by
  decide

/-- Answers for the C7 witness run: a concrete push target. -/
def c7WAns : PromptAnswers := { noAnswers with deliveryTarget := "t7" }

/-- Witness for C7 at a concrete name and push target. -/
theorem c7_witness :
    ∃ r, prepareConfig (addDefaultsCmd "W7") c7WAns (fun _ => none) 0 = .ok r ∧
      (r.prompts ⊆ [Prompt.consumerName, Prompt.deliveryTarget] ∧
       (r.cfg.filterSubject = "" ∨ r.cfg.filterSubjects = []) ∧
       (r.cfg.deliverSubject = "" → r.cfg.heartbeat = 0 ∧ r.cfg.flowControl = false) ∧
       (r.cfg.deliverSubject ≠ "" →
         r.cfg.maxWaiting = 0 ∧ r.cfg.maxRequestBatch = 0 ∧
         r.cfg.maxRequestExpires = 0 ∧ r.cfg.maxRequestMaxBytes = 0) ∧
       sampleFreqOk r.cfg.sampleFrequency ∧
       (r.cfg.ackPolicy = AckPolicy.ackNone → r.cfg.maxDeliver = -1)) := by
  refine ⟨_, rfl, ?_⟩
  exact c7_defaults_prompts_and_invariants "W7" c7WAns (fun _ => none) 0 _ rfl

/-- Flags for the C6 counterexample: pull requested together with a push
target under acceptDefaults. -/
def c6ExCmd : ConsumerCmd :=
  { addDefaults "C6" with acceptDefaults := true, pull := true, delivery := "tgt6" }

/-- C6 counterexample: with a non-empty delivery target but the pull flag
also set, the defaults-resolved ack policy is explicit, not none, because
the code tests the pull flag as well as the target. -/
theorem c6_counterexample :
    (prepareConfig c6ExCmd noAnswers (fun _ => none) 0).map
        (fun r => (r.cfg.deliverSubject, r.cfg.ackPolicy)) =
      .ok ("tgt6", AckPolicy.ackExplicit) := by
  decide

/-- Flags for the C6 witness: a defaults-accepting push consumer. -/
def c6WitCmd : ConsumerCmd :=
  { addDefaults "C6W" with acceptDefaults := true, delivery := "t6" }

/-- Witness for C6 at a concrete defaults-accepting push derivation. -/
theorem c6_witness :
    ∃ r, prepareConfig c6WitCmd noAnswers (fun _ => none) 0 = .ok r ∧
      r.cfg.ackPolicy = AckPolicy.ackNone ∧ r.cfg.deliverSubject ≠ "" ∧
      r.cfg.maxDeliver = -1 := by
  refine ⟨_, rfl, by decide, by decide, ?_⟩
  exact (c6_ack_policy_rules c6WitCmd noAnswers (fun _ => none) 0 _ rfl rfl).2.2 (by decide)

/-- Flags for the C5 counterexample: a defaults-accepting push consumer
with ack policy none and a generated backoff schedule. -/
def c5ExCmd : ConsumerCmd :=
  { addDefaults "C5" with acceptDefaults := true, delivery := "t5",
                          backoffMode := "linear", backoffSteps := 2,
                          backoffMin := 60 * second, backoffMax := 120 * second }

/-- C5 counterexample: a non-empty backoff schedule is generated and
max-deliver sits at its unset sentinel, yet the derived maximum
deliveries stays unlimited because the resolved ack policy is none. -/
theorem c5_counterexample :
    c5ExCmd.maxDeliver = 0 ∧
    (prepareConfig c5ExCmd noAnswers (fun _ => none) 0).map
        (fun r => (r.cfg.backoff, r.cfg.maxDeliver)) =
      .ok ([60 * second, 120 * second], -1) := by
  constructor
  · decide
  · decide

/-- Flags for the C5 witness: a defaults-accepting pull consumer with a
generated backoff schedule. -/
def c5WitCmd : ConsumerCmd :=
  { addDefaults "C5W" with acceptDefaults := true,
                           backoffMode := "linear", backoffSteps := 2,
                           backoffMin := 60 * second, backoffMax := 120 * second }

/-- Witness for C5 at a concrete defaults-accepting pull derivation. -/
theorem c5_witness :
    ∃ r, prepareConfig c5WitCmd noAnswers (fun _ => none) 0 = .ok r ∧
      r.cfg.maxDeliver = Int.ofNat r.cfg.backoff.length + 1 := by
  refine ⟨_, rfl, ?_⟩
  exact c5_generated_backoff_bumps_max_deliver c5WitCmd noAnswers (fun _ => none) 0 _
    rfl rfl rfl rfl (by decide) (by decide)

/-- Flags for the C8 counterexample: interactive run with
last-per-subject start policy. -/
def c8ExCmd : ConsumerCmd := { addDefaults "C8" with startPolicy := "subject" }

/-- Answers for the C8 counterexample run: the filter prompt is answered
blank. -/
def c8ExAns : PromptAnswers :=
  { noAnswers with ackPolicy := "explicit", replayPolicy := "instant",
                   maxDeliver := -1, maxAckPending := 0 }

/-- C8 counterexample: with the last-per-subject deliver policy and no
filter given, answering the interactive filter prompt with a blank leaves
the filter subject empty rather than the all-subjects wildcard. -/
theorem c8_counterexample :
    (prepareConfig c8ExCmd c8ExAns (fun _ => none) 0).map
        (fun r => (r.cfg.deliverPolicy, r.cfg.filterSubject)) =
      .ok (DeliverPolicy.lastPerSubject, "") := by
  decide

/-- Flags for the C8 witness: defaults-accepting run with last-per-subject
start policy. -/
def c8WitCmd : ConsumerCmd :=
  { addDefaults "C8W" with acceptDefaults := true, startPolicy := "subject" }

/-- Witness for C8 at a concrete defaults-accepting derivation. -/
theorem c8_witness :
    ∃ r, prepareConfig c8WitCmd noAnswers (fun _ => none) 0 = .ok r ∧
      r.cfg.filterSubject = ">" := by
  refine ⟨_, rfl, ?_⟩
  exact c8_last_per_subject_wildcard c8WitCmd noAnswers (fun _ => none) 0 _
    rfl rfl rfl rfl (by decide)

/-- Control frame with a reply subject for the C9 witness. -/
def c9Msg : NatsMsg :=
  { subject := "d.1", reply := "ackme", data := "", headers := [("Status", "100")] }

/-- C9: a push message with empty body and status header 100 is handled
as a control frame: with a stalled header a reply is published to that
header value as a subject; otherwise, with a reply subject, the frame is
acknowledged on its reply subject; without one nothing is published; and
in all cases no display event is emitted. -/
theorem c9_control_frame_handling (c : ConsumerCmd)
    (parseMeta : NatsMsg → Option MsgInfo) (m : NatsMsg)
    (hd : m.data = "") (hs : headerGet m.headers "Status" = "100") :
    pushHandler c parseMeta m =
      .ok (if headerGet m.headers "Nats-Consumer-Stalled" ≠ "" then
             [SubEvent.publish (headerGet m.headers "Nats-Consumer-Stalled")]
           else msgRespond m) ∧
    ∀ evs, pushHandler c parseMeta m = .ok evs →
      SubEvent.displayInfo ∉ evs ∧ SubEvent.displayBody ∉ evs := by
  have h1 : pushHandler c parseMeta m =
      .ok (if headerGet m.headers "Nats-Consumer-Stalled" ≠ "" then
             [SubEvent.publish (headerGet m.headers "Nats-Consumer-Stalled")]
           else msgRespond m) := by
    unfold pushHandler
    rw [if_pos ⟨hd, hs⟩]
  refine ⟨h1, fun evs hevs => ?_⟩
  rw [h1] at hevs
  have hevs2 : (if headerGet m.headers "Nats-Consumer-Stalled" ≠ "" then
      [SubEvent.publish (headerGet m.headers "Nats-Consumer-Stalled")]
    else msgRespond m) = evs := by
    injection hevs
  rw [← hevs2]
  constructor <;> (split <;> simp [msgRespond])

/-- Witness for C9 at a concrete heartbeat frame carrying a reply
subject. -/
theorem c9_witness :
    pushHandler (addDefaults "X") (fun _ => none) c9Msg =
      .ok (if headerGet c9Msg.headers "Nats-Consumer-Stalled" ≠ "" then
             [SubEvent.publish (headerGet c9Msg.headers "Nats-Consumer-Stalled")]
           else msgRespond c9Msg) ∧
    ∀ evs, pushHandler (addDefaults "X") (fun _ => none) c9Msg = .ok evs →
      SubEvent.displayInfo ∉ evs ∧ SubEvent.displayBody ∉ evs :=
  c9_control_frame_handling (addDefaults "X") (fun _ => none) c9Msg (by decide) (by decide)

end NatsCli
